import Mathlib

/-!
Shallow embedding of the props-proxy service (`src/main.py`) of the
`prizepicks-proxy` repository, together with theorems checking the
natural-language specification against it.

Conventions of the embedding:
* Python strings are Lean `String`s; every string operation the source uses
  (`lower`, `strip`, `in`, `split`, `rsplit`, `replace`, `join`, ...) is
  re-implemented below over the character list so that it is fully
  executable by the kernel.
* Python `dict.get` chains are modelled with `Option`; a JSON field that may
  be absent (or `null`) is an `Option` field of the corresponding structure.
  A string field that the source only ever reads through `... or ""` /
  `str(...)` is modelled as a plain `String` with `""` for "absent".
* Python floats carried by payloads are modelled exactly as scaled decimals
  (`PyFloat`, mantissa times 10^(-exp10)); the code never does arithmetic on
  them beyond parsing, truncation to `int`, and rendering.
* `datetime` instants are modelled as whole seconds since the Unix epoch;
  `datetime.fromisoformat` is modelled on the grammar the feeds use
  (`YYYY-MM-DD[THH:MM[:SS[.ffffff]]][±HH:MM]`, with a trailing `Z` already
  rewritten to `+00:00` by `_parse_game_time` itself, as in the source).
* The two board files are a `Store` record; writing is a pure state update,
  a missing-or-corrupt file is `none`.
-/

/-! ## Python string primitives (over `List Char`) -/

/-- ASCII lower-casing of one character, as `str.lower` acts on the
payloads of this service (they are ASCII). -/
def chLower (c : Char) : Char :=
  if 'A' ≤ c ∧ c ≤ 'Z' then Char.ofNat (c.toNat + 32) else c

/-- ASCII upper-casing of one character (`str.upper`). -/
def chUpper (c : Char) : Char :=
  if 'a' ≤ c ∧ c ≤ 'z' then Char.ofNat (c.toNat - 32) else c

/-- `str.lower`. -/
def pyLower (s : String) : String := ⟨s.data.map chLower⟩

/-- `str.upper`. -/
def pyUpper (s : String) : String := ⟨s.data.map chUpper⟩

/-- Python whitespace for `str.strip` / `str.split()`. -/
def isPyWS (c : Char) : Bool :=
  c = ' ' ∨ c = '\t' ∨ c = '\n' ∨ c = '\r'

/-- `str.strip()` (no argument): drop leading and trailing whitespace. -/
def pyStrip (s : String) : String :=
  ⟨((s.data.dropWhile isPyWS).reverse.dropWhile isPyWS).reverse⟩

/-- `str.strip(chars)` for a single strip character. -/
def pyStripChar (c : Char) (s : String) : String :=
  ⟨((s.data.dropWhile (· = c)).reverse.dropWhile (· = c)).reverse⟩

/-- Truthiness of a Python string: `bool(s)` is `s ≠ ""`. -/
def pyTruthy (s : String) : Bool := s ≠ ""

/-- `a or b` for Python strings. -/
def pyOr (a b : String) : String := if a = "" then b else a

/-- `x or b` where `x` is a `dict.get` result (`None` or a string). -/
def pyOrO (a : Option String) (b : String) : String :=
  match a with
  | none => b
  | some s => if s = "" then b else s

/-- `a or b` for two `dict.get` results, keeping the option. -/
def pyOrOO (a b : Option String) : Option String :=
  match a with
  | none => b
  | some s => if s = "" then b else some s

/-- Substring test: Python `needle in hay`. -/
def listContainsSub (needle : List Char) : List Char → Bool
  | [] => needle.isPrefixOf []
  | c :: rest => needle.isPrefixOf (c :: rest) || listContainsSub needle rest

/-- Python `needle in hay` on strings. -/
def pyContains (hay needle : String) : Bool :=
  listContainsSub needle.data hay.data

/-- Everything of `hay` strictly before the first occurrence of `needle`;
`hay` itself when `needle` does not occur.  This is
`hay.split(needle, 1)[0]`. -/
def listBeforeSub (needle : List Char) : List Char → List Char
  | [] => []
  | c :: rest =>
      if needle.isPrefixOf (c :: rest) then []
      else c :: listBeforeSub needle rest

/-- `hay.split(needle, 1)[0]` on strings. -/
def pySplitFirst (hay needle : String) : String :=
  if pyContains hay needle then ⟨listBeforeSub needle.data hay.data⟩ else hay

/-- `s.rsplit(" ", 1)[0]`: everything before the last space, or the whole
string when it has no space. -/
def pyRSplitSpaceHead (s : String) : String :=
  if pyContains s " " then
    ⟨((s.data.reverse.dropWhile (· ≠ ' ')).drop 1).reverse⟩
  else s

/-- `s.replace(old, new)` for single characters. -/
def pyReplaceChar (a b : Char) (s : String) : String :=
  ⟨s.data.map (fun c => if c = a then b else c)⟩

/-- `s.split()` (whitespace words), accumulator-style. -/
def pyWordsAux (acc : List Char) : List Char → List (List Char)
  | [] => if acc.isEmpty then [] else [acc.reverse]
  | c :: rest =>
      if isPyWS c then
        if acc.isEmpty then pyWordsAux [] rest
        else acc.reverse :: pyWordsAux [] rest
      else pyWordsAux (c :: acc) rest

/-- `s.split()`. -/
def pyWords (s : String) : List String :=
  (pyWordsAux [] s.data).map (fun l => ⟨l⟩)

/-- `sep.join(parts)`. -/
def pyJoin (sep : String) (parts : List String) : String :=
  ⟨List.intercalate sep.data (parts.map String.data)⟩

/-- `s.endswith(one-character suffix)`. -/
def pyEndsWithChar (c : Char) (s : String) : Bool :=
  match s.data.reverse with
  | [] => false
  | d :: _ => d = c

/-- Lexicographic `<` on characters lists — Python string `<`. -/
def charListLt : List Char → List Char → Bool
  | [], [] => false
  | [], _ :: _ => true
  | _ :: _, [] => false
  | a :: as, b :: bs => if a < b then true else if b < a then false else charListLt as bs

/-- Python string `<`. -/
def pyStrLt (a b : String) : Bool := charListLt a.data b.data

/-! ## Python numeric primitives -/

/-- A Python float as carried by these payloads: an exact scaled decimal,
`mant / 10 ^ exp10`.  The service never computes with lines, it only
parses, truncates and prints them, so this representation is exact. -/
structure PyFloat where
  mant : Int
  exp10 : Nat
deriving DecidableEq, Repr

/-- A JSON scalar in a numeric position: a number or a string. -/
inductive JNum where
  | num (f : PyFloat)
  | str (s : String)
deriving DecidableEq, Repr

def isDigitCh (c : Char) : Bool := '0' ≤ c ∧ c ≤ '9'

/-- Consume leading digits: returns accumulated value, digit count, rest. -/
def takeDigitsAux (acc cnt : Nat) : List Char → Nat × Nat × List Char
  | [] => (acc, cnt, [])
  | c :: rest =>
      if isDigitCh c then takeDigitsAux (acc * 10 + (c.toNat - 48)) (cnt + 1) rest
      else (acc, cnt, c :: rest)

/-- `float(s)` on a decimal literal: optional sign, digits, optional point,
digits; at least one digit; nothing else.  (The payloads only ever carry
plain decimal literals in line positions.) -/
def pyParseFloat? (s : String) : Option PyFloat :=
  let l := (pyStrip s).data
  let (sign, l) : Int × List Char :=
    match l with
    | '-' :: rest => (-1, rest)
    | '+' :: rest => (1, rest)
    | _ => (1, l)
  let (ip, ic, l) := takeDigitsAux 0 0 l
  match l with
  | [] => if ic = 0 then none else some ⟨sign * ip, 0⟩
  | '.' :: rest =>
      let (fp, fc, rest') := takeDigitsAux 0 0 rest
      if rest'.isEmpty ∧ ic + fc ≠ 0 then
        some ⟨sign * (ip * (10 : Nat) ^ fc + fp), fc⟩
      else none
  | _ => none

/-- `float(x)` on a JSON scalar (`TypeError`/`ValueError` is `none`). -/
def pyFloatOf? : Option JNum → Option PyFloat
  | none => none
  | some (.num f) => some f
  | some (.str s) => pyParseFloat? s

/-- `int(s)`: optional sign and digits only (`int("3.5")` raises). -/
def pyParseInt? (s : String) : Option Int :=
  let l := (pyStrip s).data
  let (sign, l) : Int × List Char :=
    match l with
    | '-' :: rest => (-1, rest)
    | '+' :: rest => (1, rest)
    | _ => (1, l)
  let (ip, ic, l) := takeDigitsAux 0 0 l
  if l.isEmpty ∧ ic ≠ 0 then some (sign * ip) else none

/-- `int(x)` on a JSON scalar: floats truncate toward zero. -/
def pyIntOf? : JNum → Option Int
  | .num f => some (f.mant.tdiv ((10 : Nat) ^ f.exp10))
  | .str s => pyParseInt? s

/-- Truthiness of a JSON scalar (`0`, `0.0`, `""`, `null`/absent are falsy). -/
def jnumTruthy : Option JNum → Bool
  | none => false
  | some (.num f) => f.mant ≠ 0
  | some (.str s) => s ≠ ""

/-- Decimal rendering of a `PyFloat` (`str(line)`); the exact spelling is
irrelevant to every theorem below, only that it contains no newline or
comma, which is true by construction. -/
def pyFloatRepr (f : PyFloat) : String :=
  if f.exp10 = 0 then toString f.mant ++ ".0"
  else toString f.mant ++ "e-" ++ toString f.exp10

/-! ## `datetime` modelling -/

/-- Days since 1970-01-01 of a civil date (proleptic Gregorian). -/
def daysFromCivil (y : Int) (m d : Nat) : Int :=
  let y : Int := if m ≤ 2 then y - 1 else y
  let era : Int := (if 0 ≤ y then y else y - 399).ediv 400
  let yoe : Int := y - era * 400
  let mp : Int := ((m : Int) + 9).emod 12
  let doy : Int := (153 * mp + 2).ediv 5 + (d : Int) - 1
  let doe : Int := yoe * 365 + yoe.ediv 4 - yoe.ediv 100 + doy
  era * 146097 + doe - 719468

/-- Exactly `n` ASCII digits, returning their value and the rest. -/
def fixedDigits? (n : Nat) (l : List Char) : Option (Nat × List Char) :=
  let (v, c, rest) := takeDigitsAux 0 0 (l.take n)
  if c = n ∧ (l.take n).length = n then some (v, rest ++ l.drop n) else none

/-- Parse `[±]HH:MM` timezone offset seconds, requiring the whole rest. -/
def parseOffset? (l : List Char) : Option Int :=
  match l with
  | [] => some 0
  | s :: rest =>
      if s = '+' ∨ s = '-' then
        match fixedDigits? 2 rest with
        | none => none
        | some (h, rest) =>
          match rest with
          | ':' :: rest =>
              match fixedDigits? 2 rest with
              | none => none
              | some (mi, rest) =>
                  if rest.isEmpty ∧ h ≤ 23 ∧ mi ≤ 59 then
                    some ((if s = '-' then -1 else 1) * ((h : Int) * 3600 + mi * 60))
                  else none
          | _ => none
      else none

/-- Parse `HH:MM[:SS[.ffffff]]` followed by an optional offset; returns
seconds-into-day (fraction dropped) and offset seconds. -/
def parseTimePart? (l : List Char) : Option (Int × Int) := do
  let (h, l) ← fixedDigits? 2 l
  match l with
  | ':' :: l =>
    let (mi, l) ← fixedDigits? 2 l
    let (sec, l) ←
      match l with
      | ':' :: l' =>
        match fixedDigits? 2 l' with
        | none => none
        | some (sec, l'') =>
          match l'' with
          | '.' :: l3 =>
              let (_, c, l4) := takeDigitsAux 0 0 l3
              if c = 0 then none else some (sec, l4)
          | _ => some (sec, l'')
      | _ => some (0, l)
    if h ≤ 23 ∧ mi ≤ 59 ∧ sec ≤ 59 then
      let off ← parseOffset? l
      some ((h : Int) * 3600 + mi * 60 + sec, off)
    else none
  | _ => none

/-- `datetime.fromisoformat`, on the grammar these feeds use, followed by
the source's "naive means UTC" rule and conversion to an epoch instant. -/
def fromIsoToEpoch? (l : List Char) : Option Int := do
  let (y, l) ← fixedDigits? 4 l
  match l with
  | '-' :: l =>
    let (mo, l) ← fixedDigits? 2 l
    match l with
    | '-' :: l =>
      let (d, l) ← fixedDigits? 2 l
      if 1 ≤ mo ∧ mo ≤ 12 ∧ 1 ≤ d ∧ d ≤ 31 then
        match l with
        | [] => some (daysFromCivil y mo d * 86400)
        | sep :: rest =>
            if sep = 'T' ∨ sep = ' ' then
              match parseTimePart? rest with
              | none => none
              | some (secs, off) => some (daysFromCivil y mo d * 86400 + secs - off)
            else none
      else none
    | _ => none
  | _ => none

/-! ## Sport registry (`SPORTS`, `UNDERDOG_SPORT_IDS`, `ALLOWED_TIERS`) -/

structure SportCfg where
  name : String
  league_id : String
deriving DecidableEq, Repr

/-- The `SPORTS` table of `src/main.py`, in source order. -/
def SPORTS : List (String × SportCfg) :=
  [("nfl", ⟨"NFL", "9"⟩),
   ("nba", ⟨"NBA", "7"⟩),
   ("nhl", ⟨"NHL", "8"⟩),
   ("cbb", ⟨"CBB", "20"⟩),
   ("cfb", ⟨"CFB", "15"⟩),
   ("soccer", ⟨"Soccer", "82"⟩),
   ("tennis", ⟨"Tennis", "5"⟩),
   ("cs2", ⟨"CS2", "265"⟩)]

/-- `SPORTS[key]` / `key in SPORTS`. -/
def sportsFind? (k : String) : Option SportCfg :=
  (SPORTS.find? (fun e => e.1 = k)).map (·.2)

/-- The `UNDERDOG_SPORT_IDS` table. -/
def UNDERDOG_SPORT_IDS : List (String × String) :=
  [("nfl", "NFL"), ("nba", "NBA"), ("nhl", "NHL"), ("cbb", "CBB"),
   ("cfb", "CFB"), ("soccer", "FIFA"), ("tennis", "TENNIS"), ("cs2", "CS")]

def underdogSportId? (k : String) : Option String :=
  (UNDERDOG_SPORT_IDS.find? (fun e => e.1 = k)).map (·.2)

/-- `ALLOWED_TIERS` (a set; only membership is ever used). -/
def ALLOWED_TIERS : List String := ["standard", "goblin", "demon"]

/-! ## Sport slugs -/

/-- One step of `re.sub(r"[^a-z0-9]+", "-", s)`: map every character not in
`[a-z0-9]` to a dash (runs are collapsed right after). -/
def slugOkChar (c : Char) : Bool := ('a' ≤ c ∧ c ≤ 'z') ∨ ('0' ≤ c ∧ c ≤ '9')

/-- Collapse runs of dashes to a single dash (`re.sub(r"-+", "-", s)`). -/
def collapseDashes : List Char → List Char
  | [] => []
  | [c] => [c]
  | c :: d :: rest =>
      if c = '-' ∧ d = '-' then collapseDashes (d :: rest)
      else c :: collapseDashes (d :: rest)

/-- `sport_slug_from_label` of `src/main.py`: strip+lower, non-alphanumeric
runs to `-`, collapse and trim dashes, `"unknown"` when empty. -/
def sport_slug_from_label (label : String) : String :=
  let s := pyLower (pyStrip label)
  let s : List Char := s.data.map (fun c => if slugOkChar c then c else '-')
  let s := collapseDashes s
  let s : String := pyStripChar '-' ⟨s⟩
  if s = "" then "unknown" else s

/-! ## The canonical prop record -/

/-- One canonical prop record.  String fields that the source reads only
through `p.get(k) or ""` / `str(...)` are plain strings with `""` for
absent; `line` and `game_time` keep their absent case explicitly. -/
structure PropRec where
  id : Option String := none
  source : String := ""
  board : String := ""
  league : String := ""
  sport : String := ""
  sport_slug : String := ""
  player : String := ""
  team : String := ""
  opponent : String := ""
  stat : String := ""
  market : String := ""
  line : Option PyFloat := none
  game_time : Option String := none
  projection_type : String := ""
  tier : String := ""
  ud_american_over : Option String := none
  ud_american_under : Option String := none
deriving DecidableEq, Repr

/-- `get_prop_sport_slug` of `src/main.py`. -/
def get_prop_sport_slug (p : PropRec) : String :=
  let slug := pyLower (pyStrip p.sport_slug)
  if slug ≠ "" then slug
  else
    let label := pyStrip (pyOr p.sport p.league)
    if label = "" then ""
    else
      let lower_label := pyLower label
      match SPORTS.find? (fun e => pyLower e.2.name = lower_label) with
      | some e => e.1
      | none => sport_slug_from_label label

/-! ## Storage layer -/

/-- The two board files (`props.json`, `props_backup.json`); `none` models a
missing or unparseable file. -/
structure Store where
  dataFile : Option (List PropRec)
  backupFile : Option (List PropRec)
deriving DecidableEq, Repr

/-- `save_props`: write the list to the primary and to the backup file. -/
def save_props (props : List PropRec) : Store :=
  { dataFile := some props, backupFile := some props }

/-- `load_file_props_raw_or_empty`: prefer the primary file, then the
backup, else the empty board. -/
def load_file_props_raw_or_empty (st : Store) : List PropRec :=
  match st.dataFile with
  | some l => l
  | none =>
      match st.backupFile with
      | some l => l
      | none => []

/-- `_parse_game_time` of `src/main.py`: empty/absent is `none`, a trailing
`Z` becomes `+00:00`, then ISO parse with naive-means-UTC. -/
def parse_game_time (value : Option String) : Option Int :=
  match value with
  | none => none
  | some v =>
      if ¬ pyTruthy v then none
      else
        let s := pyStrip v
        let s : List Char :=
          if pyEndsWithChar 'Z' s then s.data.dropLast ++ "+00:00".data else s.data
        fromIsoToEpoch? s

/-- The pruning loop inside `get_current_props`: returns the kept records
in order and whether anything was dropped. -/
def pruneProps (now : Int) : List PropRec → List PropRec × Bool
  | [] => ([], false)
  | p :: rest =>
      let (fs, ch) := pruneProps now rest
      match parse_game_time p.game_time with
      | none => (p :: fs, ch)
      | some gt => if now ≤ gt then (p :: fs, ch) else (fs, true)

/-- `get_current_props` of `src/main.py`, at UTC instant `now`: load, drop
past records, save back when anything was dropped; returns the served list
and the store afterwards. -/
def get_current_props (st : Store) (now : Int) : List PropRec × Store :=
  let raw := load_file_props_raw_or_empty st
  if raw.isEmpty then ([], st)
  else
    let pr := pruneProps now raw
    if pr.2 then (pr.1, save_props pr.1) else (pr.1, st)

section SanityChecks

example : sport_slug_from_label "Table Tennis!" = "table-tennis" := by decide
example : sport_slug_from_label "  " = "unknown" := by decide
example : pyParseFloat? "255.5" = some ⟨2555, 1⟩ := by decide
example : pyParseFloat? "abc" = none := by decide
example : pyParseInt? "3.5" = none := by decide
example : parse_game_time (some "2026-10-12T10:00:00Z") =
    some (daysFromCivil 2026 10 12 * 86400 + 36000) := by decide
example : parse_game_time (some "2026-10-12T10:00:00+01:00") =
    some (daysFromCivil 2026 10 12 * 86400 + 36000 - 3600) := by decide
example : parse_game_time (some "not a time") = none := by decide
example : parse_game_time (some "") = none := by decide
example : daysFromCivil 1970 1 1 = 0 := by decide
example : daysFromCivil 1970 1 2 = 1 := by decide
example : daysFromCivil 1969 12 31 = -1 := by decide
example : daysFromCivil 2000 3 1 = 11017 := by decide

end SanityChecks

/-! ## PrizePicks payload shape -/

/-- The attributes block of a PrizePicks projection entry; every field the
source reads, `none` when absent.  `league_id` ids are modelled as the
strings the source immediately coerces them to with `str(...)`. -/
structure PPAttrs where
  stat_type : Option String := none
  stat : Option String := none
  stat_display_name : Option String := none
  line_score : Option JNum := none
  odds_Type : Option String := none
  odds_type : Option String := none
  oddsType : Option String := none
  tier : Option String := none
  description : Option String := none
  league_id : Option String := none
  start_time : Option String := none
  start_at : Option String := none
deriving DecidableEq, Repr

/-- A relationship object `{"data": {"id": ...}}`; `dataId` is
`(rel or {}).get("data") or {}).get("id")`.  A relationship key that is
present but an empty dict is modelled as absent (both are falsy every
place the source looks). -/
structure PPRel where
  dataId : Option String := none
deriving DecidableEq, Repr

/-- One entry of the PrizePicks `data` list. -/
structure PPProj where
  id : Option String := none
  attributes : PPAttrs := {}
  rel_new_player : Option PPRel := none
  rel_player : Option PPRel := none
  rel_game : Option PPRel := none
  rel_league : Option PPRel := none
deriving DecidableEq, Repr

/-- Attributes of one entry of the PrizePicks `included` list. -/
structure PPIncludedAttrs where
  name : Option String := none
  team : Option String := none
  team_abbreviation : Option String := none
  league : Option String := none
  abbreviation : Option String := none
  market : Option String := none
  start_time : Option String := none
  start_at : Option String := none
deriving DecidableEq, Repr

/-- One entry of the PrizePicks `included` list. -/
structure PPIncluded where
  id : Option String := none
  type : Option String := none
  attributes : PPIncludedAttrs := {}
  rel_home_team_data : Option PPRel := none
  rel_away_team_data : Option PPRel := none
deriving DecidableEq, Repr

/-- A PrizePicks-shaped payload (`raw.get("data", []) or []` and
`raw.get("included", []) or []` both give lists; a missing key is `[]`). -/
structure PPRaw where
  data : List PPProj := []
  included : List PPIncluded := []
deriving DecidableEq, Repr

/-- `_extract_tier_from_attrs` of `src/main.py`. -/
def extract_tier_from_attrs (attrs : PPAttrs) : String :=
  let raw := pyOrOO (pyOrOO (pyOrOO attrs.odds_Type attrs.odds_type) attrs.oddsType)
      attrs.tier
  match raw with
  | none => "standard"
  | some r =>
      if r = "" then "standard"
      else
        let t := pyLower (pyStrip r)
        if pyContains t "goblin" then "goblin"
        else if pyContains t "demon" then "demon"
        else if pyContains t "standard" ∨ pyContains t "normal" then "standard"
        else "standard"

/-! ## Dict helpers (insertion-order association lists) -/

def dictInsert {α : Type} (k : String) (v : α) (d : List (String × α)) :
    List (String × α) :=
  (d.filter (fun e => e.1 ≠ k)) ++ [(k, v)]

def dictGet? {α : Type} (d : List (String × α)) (k : String) : Option α :=
  (d.find? (fun e => e.1 = k)).map (·.2)

/-- Add to a Python `set` modelled as a duplicate-free list. -/
def setAdd (l : List String) (x : String) : List String :=
  if l.contains x then l else l ++ [x]

def optTruthy (a : Option String) : Bool :=
  match a with
  | none => false
  | some s => s ≠ ""

/-- Stable insertion by a strict-less test (`list.sort` building block). -/
def insertByLt {α : Type} (lt : α → α → Bool) (x : α) : List α → List α
  | [] => [x]
  | y :: ys => if lt y x then y :: insertByLt lt x ys else x :: y :: ys

/-- A stable sort equal to Python `list.sort` for the given strict order. -/
def pySort {α : Type} (lt : α → α → Bool) (l : List α) : List α :=
  l.foldr (insertByLt lt) []

/-- `sorted(set_of_strings)`. -/
def pySortStrings (l : List String) : List String := pySort pyStrLt l

/-- Python `repr` of a list of strings, as interpolated into error
messages (`['7']`). -/
def pyListRepr (l : List String) : String :=
  "[" ++ pyJoin ", " (l.map (fun s => "\x27" ++ s ++ "\x27")) ++ "]"

/-! ## `normalize_prizepicks` -/

/-- Values of the `players` lookup table. -/
structure PlayerInfo where
  name : Option String := none
  team : String := ""
  league : String := ""
deriving DecidableEq, Repr

/-- Values of the `games` lookup table. -/
structure GameInfo where
  home_team_id : Option String := none
  away_team_id : Option String := none
  start_time : Option String := none
deriving DecidableEq, Repr

/-- Values of the `teams` lookup table. -/
structure TeamInfo where
  abbreviation : String := ""
  name : String := ""
  market : String := ""
deriving DecidableEq, Repr

/-- The league-id collection loop of `normalize_prizepicks` (a Python
`set`, here an insertion-ordered duplicate-free list). -/
def collectLeagueIds (data : List PPProj) : List String :=
  data.foldl
    (fun acc proj =>
      let acc :=
        match proj.rel_league with
        | some r =>
            match r.dataId with
            | some lid => setAdd acc lid
            | none => acc
        | none => acc
      match proj.attributes.league_id with
      | some lid => setAdd acc lid
      | none => acc)
    []

/-- The `included`-partitioning loop of `normalize_prizepicks`: the
`players`, `games` and `teams` tables. -/
def buildIncludedMaps (sport_name : String) (included : List PPIncluded) :
    List (String × PlayerInfo) × List (String × GameInfo) × List (String × TeamInfo) :=
  included.foldl
    (fun maps item =>
      let (players, games, teams) := maps
      match item.id with
      | none => maps
      | some iid =>
          if iid = "" then maps
          else
            let attrs := item.attributes
            if item.type = some "new_player" ∨ item.type = some "player" then
              (dictInsert iid
                { name := attrs.name
                  team := pyOrO (pyOrOO attrs.team attrs.team_abbreviation) ""
                  league := pyOrO attrs.league sport_name } players,
               games, teams)
            else if item.type = some "team" then
              (players, games,
               dictInsert iid
                { abbreviation := pyOrO attrs.abbreviation ""
                  name := pyOrO attrs.name ""
                  market := pyOrO attrs.market "" } teams)
            else if item.type = some "game" then
              (players,
               dictInsert iid
                { home_team_id := (item.rel_home_team_data.map (·.dataId)).join
                  away_team_id := (item.rel_away_team_data.map (·.dataId)).join
                  start_time := pyOrOO attrs.start_time attrs.start_at } games,
               teams)
            else maps)
    ([], [], [])

/-- The body of the `for proj in data` loop of `normalize_prizepicks`:
`none` is the loop's `continue`. -/
def ppProjToProp? (sport_name sport_slug : String)
    (players : List (String × PlayerInfo)) (games : List (String × GameInfo))
    (teams : List (String × TeamInfo)) (proj : PPProj) : Option PropRec :=
  match proj.id with
  | none => none
  | some pid =>
    if pid = "" then none
    else
      let attrs := proj.attributes
      let player_rel : Option PPRel :=
        match proj.rel_new_player with
        | some r => some r
        | none => proj.rel_player
      let player_id : Option String := (player_rel.map (·.dataId)).join
      let game_id : Option String := (proj.rel_game.map (·.dataId)).join
      let player_info : Option PlayerInfo :=
        match player_id with
        | none => none
        | some k => dictGet? players k
      let game_info : Option GameInfo :=
        match game_id with
        | none => none
        | some k => dictGet? games k
      let player := pyOrO ((player_info.map (·.name)).join) "Unknown"
      let team := pyOr ((player_info.map (·.team)).getD "") ""
      let league := pyOr ((player_info.map (·.league)).getD "") sport_name
      let home_team_abbr : Option String :=
        match game_info with
        | none => none
        | some gi =>
            match gi.home_team_id with
            | none => none
            | some hid =>
                if hid ≠ "" then (dictGet? teams hid).map (·.abbreviation) else none
      let away_team_abbr : Option String :=
        match game_info with
        | none => none
        | some gi =>
            match gi.away_team_id with
            | none => none
            | some aid =>
                if aid ≠ "" then (dictGet? teams aid).map (·.abbreviation) else none
      let opponent : String :=
        if pyTruthy team ∧ optTruthy home_team_abbr ∧ optTruthy away_team_abbr then
          if some team = home_team_abbr then away_team_abbr.getD ""
          else if some team = away_team_abbr then home_team_abbr.getD ""
          else ""
        else ""
      let opponent : String :=
        if ¬ pyTruthy opponent ∧ optTruthy home_team_abbr ∧ optTruthy away_team_abbr then
          if attrs.description = home_team_abbr ∧ attrs.description ≠ none then
            away_team_abbr.getD ""
          else if attrs.description = away_team_abbr ∧ attrs.description ≠ none then
            home_team_abbr.getD ""
          else opponent
        else opponent
      let stat := pyOrO (pyOrOO (pyOrOO attrs.stat_type attrs.stat) attrs.stat_display_name) ""
      let line_val : Option PyFloat :=
        match attrs.line_score with
        | none => none
        | some j => pyFloatOf? (some j)
      let start_time : Option String :=
        pyOrOO (pyOrOO ((game_info.map (·.start_time)).join) attrs.start_time) attrs.start_at
      let tier := extract_tier_from_attrs attrs
      match line_val with
      | none => none
      | some lv =>
          if ¬ pyTruthy player ∨ ¬ pyTruthy stat then none
          else
            some
              { id := some pid
                source := "prizepicks"
                board := sport_name
                league := league
                sport := sport_name
                sport_slug := sport_slug
                player := player
                team := team
                opponent := opponent
                stat := stat
                market := pyReplaceChar ' ' '_' (pyLower stat)
                line := some lv
                game_time := start_time
                projection_type := "main"
                tier := tier
                ud_american_over := none
                ud_american_under := none }

/-- The league-mismatch `ValueError` message of `normalize_prizepicks`. -/
def leagueMismatchMsg (sport_name expected : String) (ids : List String) : String :=
  "League mismatch: selected " ++ sport_name ++ " (league_id " ++ expected ++
    "), but JSON contained league ids " ++ pyListRepr (pySortStrings ids)

/-- Shared tail of `normalize_prizepicks` after the sport key has been
resolved to a display name, an optional expected league id, and a slug. -/
def normalize_prizepicks_core (raw : PPRaw) (sport_name : String)
    (expected_league_id : Option String) (sport_slug : String) :
    Except String (List PropRec) :=
  let league_ids := collectLeagueIds raw.data
  if optTruthy expected_league_id ∧ league_ids ≠ [] ∧
      league_ids ≠ [expected_league_id.getD ""] then
    .error (leagueMismatchMsg sport_name (expected_league_id.getD "") league_ids)
  else
    let maps := buildIncludedMaps sport_name raw.included
    .ok (raw.data.filterMap
      (ppProjToProp? sport_name sport_slug maps.1 maps.2.1 maps.2.2))

/-- `normalize_prizepicks` of `src/main.py`. -/
def normalize_prizepicks (raw : PPRaw) (sport_key : String)
    (sport_label : Option String := none) : Except String (List PropRec) :=
  let sport_key := pyLower sport_key
  if sport_key = "extras" then
    let sport_name := pyOr (pyStrip (pyOrO sport_label "Extras")) "Extras"
    normalize_prizepicks_core raw sport_name none (sport_slug_from_label sport_name)
  else
    match sportsFind? sport_key with
    | none => .error ("Unknown sport key: " ++ sport_key)
    | some cfg =>
        normalize_prizepicks_core raw cfg.name (some cfg.league_id) sport_key

section SanityChecks2

/-- A one-projection payload: one player, one game, `stat_type` with a
255.5 line. -/
def ppDemoRaw : PPRaw :=
  { data :=
      [{ id := some "proj1"
         attributes :=
           { stat_type := some "Passing Yards"
             line_score := some (.str "255.5")
             league_id := some "9" }
         rel_new_player := some { dataId := some "pl1" }
         rel_game := some { dataId := some "g1" } }]
    included :=
      [{ id := some "pl1", type := some "new_player"
         attributes := { name := some "John Smith", team := some "KC" } },
       { id := some "t1", type := some "team"
         attributes := { abbreviation := some "KC" } },
       { id := some "t2", type := some "team"
         attributes := { abbreviation := some "BUF" } },
       { id := some "g1", type := some "game"
         attributes := { start_time := some "2030-01-01T18:00:00Z" }
         rel_home_team_data := some { dataId := some "t1" }
         rel_away_team_data := some { dataId := some "t2" } }] }

example :
    (normalize_prizepicks ppDemoRaw "nfl").toOption.map (·.map (·.player)) =
      some ["John Smith"] := by decide

example :
    (normalize_prizepicks ppDemoRaw "nfl").toOption.map (·.map (·.opponent)) =
      some ["BUF"] := by decide

example :
    (normalize_prizepicks ppDemoRaw "nfl").toOption.map (·.map (·.market)) =
      some ["passing_yards"] := by decide

example :
    (normalize_prizepicks ppDemoRaw "nfl").toOption.map (·.map (·.line)) =
      some [some ⟨2555, 1⟩] := by decide

example : (normalize_prizepicks ppDemoRaw "nba").isOk = false := by decide

example :
    extract_tier_from_attrs { odds_Type := some "DEMON_BOOST" } = "demon" := by decide

end SanityChecks2

/-- `Except` as a sum, to obtain decidable equality on results. -/
def exceptToSum {ε α : Type} : Except ε α → ε ⊕ α
  | .error e => .inl e
  | .ok a => .inr a

instance {ε α : Type} [DecidableEq ε] [DecidableEq α] : DecidableEq (Except ε α) :=
  fun a b =>
    decidable_of_iff (exceptToSum a = exceptToSum b)
      (by cases a <;> cases b <;> simp [exceptToSum])

/-! ## Underdog payload shape -/

structure UDGame where
  id : Option String := none
  sport_id : Option String := none
  scheduled_at : Option String := none
  starts_at : Option String := none
  short_title : Option String := none
  abbreviated_title : Option String := none
  title : Option String := none
deriving DecidableEq, Repr

structure UDAppearance where
  id : Option String := none
  match_id : Option String := none
deriving DecidableEq, Repr

structure UDOption where
  choice : Option String := none
  selection_header : Option String := none
  american_price : Option String := none
deriving DecidableEq, Repr

structure UDAppStat where
  appearance_id : Option String := none
  stat : Option String := none
  display_stat : Option String := none
deriving DecidableEq, Repr

structure UDOverUnder where
  title : Option String := none
  appearance_stat : Option UDAppStat := none
deriving DecidableEq, Repr

structure UDLine where
  id : Option String := none
  status : Option String := none
  over_under : Option UDOverUnder := none
  stat_value : Option JNum := none
  options : List UDOption := []
deriving DecidableEq, Repr

/-- An Underdog-shaped payload (each missing list key is `[]`). -/
structure UDRaw where
  games : List UDGame := []
  appearances : List UDAppearance := []
  over_under_lines : List UDLine := []
deriving DecidableEq, Repr

/-- `{g.get("id"): g for g in ... if g.get("id") is not None}`. -/
def udGamesDict (l : List UDGame) : List (String × UDGame) :=
  l.foldl
    (fun d g =>
      match g.id with
      | none => d
      | some i => dictInsert i g d)
    []

def udAppearancesDict (l : List UDAppearance) : List (String × UDAppearance) :=
  l.foldl
    (fun d a =>
      match a.id with
      | none => d
      | some i => dictInsert i a d)
    []

/-- The `sport_id` collection loop of `normalize_underdog` (a Python set of
upper-cased ids). -/
def collectUdSportIds (gamesD : List (String × UDGame)) : List String :=
  gamesD.foldl
    (fun acc e =>
      match e.2.sport_id with
      | none => acc
      | some sid => if sid = "" then acc else setAdd acc (pyUpper sid))
    []

/-- The options scan of `normalize_underdog`: first non-empty
`selection_header`, and the `american_price` of the `higher` and `lower`
choices (last write wins, as in the loop). -/
def scanOptions (opts : List UDOption)
    (acc : String × Option String × Option String) :
    String × Option String × Option String :=
  match opts with
  | [] => acc
  | opt :: rest =>
      let (player_name, over_price, under_price) := acc
      let choice := pyLower (pyOrO opt.choice "")
      let header := pyOrO opt.selection_header ""
      let player_name := if player_name = "" ∧ header ≠ "" then header else player_name
      let over_price := if choice = "higher" then opt.american_price else over_price
      let under_price := if choice = "lower" then opt.american_price else under_price
      scanOptions rest (player_name, over_price, under_price)

/-- The body of the `for line in lines` loop of `normalize_underdog`;
`none` is the loop's `continue`/skip. -/
def udLineToProp? (sport_name sport_slug : String)
    (gamesD : List (String × UDGame)) (appearancesD : List (String × UDAppearance))
    (line : UDLine) : Option PropRec :=
  let status := pyLower (pyOrO line.status "")
  if status ≠ "" ∧ status ≠ "active" then none
  else
    let over_under := line.over_under
    let app_stat : Option UDAppStat := over_under.bind (·.appearance_stat)
    let stat_display := pyOrO (app_stat.bind (·.display_stat)) ""
    let stat_code := pyOrO (app_stat.bind (·.stat)) ""
    if stat_display = "" ∧ stat_code = "" then none
    else
      match pyFloatOf? line.stat_value with
      | none => none
      | some line_val =>
          let appearance : Option UDAppearance :=
            match app_stat.bind (·.appearance_id) with
            | none => none
            | some aid => dictGet? appearancesD aid
          let match_id : Option String := appearance.bind (·.match_id)
          let game : Option UDGame :=
            match match_id with
            | none => none
            | some mid => dictGet? gamesD mid
          let game_time : Option String :=
            pyOrOO (game.bind (·.scheduled_at)) (game.bind (·.starts_at))
          let matchup : String :=
            pyOrO (pyOrOO (pyOrOO (game.bind (·.short_title))
              (game.bind (·.abbreviated_title))) (game.bind (·.title))) ""
          let scanned := scanOptions line.options ("", none, none)
          let player_name := scanned.1
          let over_price := scanned.2.1
          let under_price := scanned.2.2
          let player_name :=
            if player_name = "" then
              let title := pyOrO (over_under.bind (·.title)) ""
              if pyContains title " O/U" then
                let base := pyStrip (pySplitFirst title " O/U")
                pyOr (pyRSplitSpaceHead base) base
              else player_name
            else player_name
          if player_name = "" then none
          else
            let market :=
              pyOr (pyOr stat_code (pyLower (pyReplaceChar ' ' '_' stat_display))) "unknown"
            some
              { id := line.id
                source := "underdog"
                board := sport_name
                league := sport_name
                sport := sport_name
                sport_slug := sport_slug
                player := player_name
                team := ""
                opponent := matchup
                stat := pyOr stat_display stat_code
                market := market
                line := some line_val
                game_time := game_time
                projection_type := "main"
                tier := "standard"
                ud_american_over := over_price
                ud_american_under := under_price }

/-- The sport-mismatch `ValueError` message of `normalize_underdog`. -/
def sportMismatchMsg (sport_name expected : String) (ids : List String) : String :=
  "Sport mismatch: selected " ++ sport_name ++ " (Underdog sport_id " ++ expected ++
    "), but JSON contained sport ids " ++ pyListRepr (pySortStrings ids)

/-- The missing-label `ValueError` message of `normalize_underdog`. -/
def udMissingLabelMsg : String :=
  "When uploading as \x27extras\x27, you must provide a \x27sport_label\x27 (e.g. \x27Badminton\x27)."

/-- Shared tail of `normalize_underdog` after sport resolution. -/
def normalize_underdog_core (raw : UDRaw) (sport_name : String)
    (expected_sport_id : Option String) (sport_slug : String) :
    Except String (List PropRec) :=
  let gamesD := udGamesDict raw.games
  let appearancesD := udAppearancesDict raw.appearances
  let mismatch : Option String :=
    if optTruthy expected_sport_id then
      let sport_ids := collectUdSportIds gamesD
      if sport_ids ≠ [] ∧ sport_ids ≠ [expected_sport_id.getD ""] then
        some (sportMismatchMsg sport_name (expected_sport_id.getD "") sport_ids)
      else none
    else none
  match mismatch with
  | some msg => .error msg
  | none =>
      .ok (raw.over_under_lines.filterMap
        (udLineToProp? sport_name sport_slug gamesD appearancesD))

/-- `normalize_underdog` of `src/main.py`. -/
def normalize_underdog (raw : UDRaw) (sport_key : String)
    (sport_label : Option String := none) : Except String (List PropRec) :=
  let sport_key := pyLower sport_key
  if sport_key = "extras" then
    if ¬ optTruthy sport_label then .error udMissingLabelMsg
    else
      let sport_name := pyStrip (sport_label.getD "")
      if sport_name = "" then .error "Custom sport label cannot be empty."
      else
        normalize_underdog_core raw sport_name none (sport_slug_from_label sport_name)
  else
    match sportsFind? sport_key with
    | none => .error ("Unknown sport key: " ++ sport_key)
    | some cfg =>
        normalize_underdog_core raw cfg.name (underdogSportId? sport_key) sport_key

section SanityChecks3

/-- One active over/under line with no selection headers and the title of
testable property 9. -/
def udDemoLine : UDLine :=
  { id := some "ou1"
    over_under :=
      some { title := some "Jane Doe O/U Points"
             appearance_stat :=
               some { appearance_id := some "ap1", stat := some "points"
                      display_stat := some "Points" } }
    stat_value := some (.str "10.5")
    options := [{ choice := some "higher", american_price := some "-110" },
                { choice := some "lower", american_price := some "-120" }] }

def udDemoRaw : UDRaw :=
  { games := [{ id := some "g1", sport_id := some "NBA"
                scheduled_at := some "2030-02-01T00:00:00Z"
                title := some "BOS @ LAL" }]
    appearances := [{ id := some "ap1", match_id := some "g1" }]
    over_under_lines := [udDemoLine] }

example :
    (normalize_underdog udDemoRaw "nba").toOption.map (·.map (·.player)) =
      some ["Jane"] := by decide

example :
    (normalize_underdog udDemoRaw "nba").toOption.map (·.map (·.opponent)) =
      some ["BOS @ LAL"] := by decide

example :
    (normalize_underdog udDemoRaw "nba").toOption.map (·.map (·.ud_american_over)) =
      some [some "-110"] := by decide

example : normalize_underdog udDemoRaw "extras" = .error udMissingLabelMsg := by decide

example : (normalize_underdog udDemoRaw "nfl").isOk = false := by decide

end SanityChecks3

/-! ## CSV helpers, board sort, HTTP errors -/

/-- `_clean_csv_val` of `src/main.py`. -/
def clean_csv_val (v : String) : String :=
  pyStrip (pyReplaceChar '\n' ' ' (pyReplaceChar ',' ' ' v))

/-- `_model_csv_val` of `src/main.py`: commas/newlines removed, runs of
whitespace collapsed to underscores. -/
def model_csv_val (v : String) : String :=
  pyJoin "_" (pyWords (pyStrip (pyReplaceChar '\n' ' ' (pyReplaceChar ',' ' ' v))))

/-- `str(p.get("line", ""))`. -/
def lineStr (l : Option PyFloat) : String :=
  match l with
  | none => ""
  | some f => pyFloatRepr f

/-- `p.get("game_time", "")`. -/
def gameTimeStr (g : Option String) : String := g.getD ""

/-- The sort key `(p.get("sport") or "", p.get("game_time") or "",
p.get("player") or "")` shared by the model board and the export. -/
def boardSortKey (p : PropRec) : String × String × String :=
  (pyOr p.sport "", pyOrO p.game_time "", pyOr p.player "")

/-- Python `<` on the sort-key tuples. -/
def keyLt (a b : String × String × String) : Bool :=
  pyStrLt a.1 b.1 ||
    (a.1 = b.1 && (pyStrLt a.2.1 b.2.1 ||
      (a.2.1 = b.2.1 && pyStrLt a.2.2 b.2.2)))

/-- `props.sort(key=boardSortKey)` — Python `list.sort` is stable. -/
def sortBoard (l : List PropRec) : List PropRec :=
  pySort (fun p q => keyLt (boardSortKey p) (boardSortKey q)) l

/-- A FastAPI `HTTPException`. -/
structure HErr where
  status : Nat
  detail : String
deriving DecidableEq, Repr

/-! ## Model-board filtering and pagination -/

/-- The tier-validation loop of `_filter_props_for_board`. -/
def tiersLoop (acc : List String) : List String → Except HErr (List String)
  | [] => .ok acc
  | t :: rest =>
      if ALLOWED_TIERS.contains t then tiersLoop (setAdd acc t) rest
      else .error ⟨400, "Invalid tier \x27" ++ t ++ "\x27"⟩

/-- Split on `+`, like Python `str.split("+")`. -/
def splitCharAux (c : Char) (cur : List Char) : List Char → List (List Char)
  | [] => [cur.reverse]
  | d :: rest =>
      if d = c then cur.reverse :: splitCharAux c [] rest
      else splitCharAux c (d :: cur) rest

def pySplitChar (c : Char) (s : String) : List String :=
  (splitCharAux c [] s.data).map (fun l => ⟨l⟩)

/-- `_filter_props_for_board` of `src/main.py`.  The source reads
`all_props = get_current_props()`; here the served board is a parameter and
the composition with the store happens at the endpoint wrappers below. -/
def filter_props_for_board (all_props : List PropRec) (sport : String)
    (tiers_str : Option String) : Except HErr (List PropRec) :=
  let sport := pyLower sport
  let tierSetE : Except HErr (Option (List String)) :=
    match tiers_str with
    | none => .ok none
    | some ts =>
        if ts = "" then .ok none
        else
          let parts := (pySplitChar '+' ts).filterMap
            (fun t => if pyStrip t = "" then none else some (pyLower (pyStrip t)))
          match tiersLoop [] parts with
          | .error e => .error e
          | .ok tmp => if tmp.isEmpty then .error ⟨400, "No valid tiers"⟩ else .ok (some tmp)
  match tierSetE with
  | .error e => .error e
  | .ok tier_set =>
      let filtered :=
        if sport = "" ∨ sport = "all" then all_props
        else all_props.filter (fun p => get_prop_sport_slug p = sport)
      let filtered :=
        match tier_set with
        | none => filtered
        | some ts => filtered.filter (fun p => ts.contains (pyLower (pyOr p.tier "")))
      .ok (sortBoard filtered)

/-- The CSV header of the model-board pages. -/
def modelHeader : String := "sport,player,team,opponent,stat,line,tier,game_time"

/-- One CSV row of a model-board page. -/
def modelRow (p : PropRec) : String :=
  pyJoin ","
    [model_csv_val p.sport, model_csv_val p.player, model_csv_val p.team,
     model_csv_val p.opponent, model_csv_val p.stat, lineStr p.line,
     model_csv_val p.tier, model_csv_val (gameTimeStr p.game_time)]

/-- The 404 detail `f"Page {page} out of range (total_pages={total_pages})"`. -/
def pageOutOfRangeMsg (page total_pages : Int) : String :=
  "Page " ++ toString page ++ " out of range (total_pages=" ++ toString total_pages ++ ")"

/-- `_build_model_page_text` of `src/main.py` (over the served board, like
`filter_props_for_board` above).  `page_size = 0` would raise
`ZeroDivisionError` in the source and is outside this model. -/
def build_model_page_text (all_props : List PropRec) (sport_key : String)
    (tiers_str : Option String) (page : Int) (page_size : Int) : Except HErr String :=
  if page < 1 then .error ⟨400, "Page must be >= 1"⟩
  else
    match filter_props_for_board all_props sport_key tiers_str with
    | .error e => .error e
    | .ok filtered =>
        let total : Int := filtered.length
        if total = 0 then .ok (modelHeader ++ "\n")
        else
          let total_pages := (total + page_size - 1).ediv page_size
          if page > total_pages then .error ⟨404, pageOutOfRangeMsg page total_pages⟩
          else
            let start := (page - 1) * page_size
            let page_props := (filtered.drop start.toNat).take page_size.toNat
            .ok (pyJoin "\n" (modelHeader :: page_props.map modelRow))

/-! ## Upload endpoint (`POST /update-props`) -/

/-- A raw payload after the endpoint's shape detection: PrizePicks-shaped
(`data`+`included` lists) or Underdog-shaped (`games`+`over_under_lines`).
A body whose `raw` is not a dict of either shape is modelled as `none` at
the endpoint. -/
inductive ProviderRaw where
  | pp (raw : PPRaw)
  | ud (raw : UDRaw)
deriving DecidableEq, Repr

/-- The success response of `update_props`. -/
structure UpdateResp where
  sport : String
  sport_key : String
  source : String
  count : Nat
  total : Nat
deriving DecidableEq, Repr

/-- Lines 1899–1923 of `update_props`: resolve the slug and label of the
upload, drop every stored record of that sport, append the new batch.
Returns `(combined, sport_slug, out_label)`. -/
def update_props_merge (existing new_props : List PropRec) (sport_key : String)
    (sport_label : Option String) : List PropRec × String × String :=
  let slugLabel : String × String :=
    match new_props with
    | p :: _ => (get_prop_sport_slug p, p.sport)
    | [] =>
        if sport_key = "extras" then
          let lbl := pyOrO sport_label "Extras"
          (sport_slug_from_label lbl, lbl)
        else
          match sportsFind? sport_key with
          | some cfg => (sport_key, cfg.name)
          | none => (sport_key, "")
  let sport_slug := slugLabel.1
  let out_label := slugLabel.2
  let remaining :=
    if sport_slug ≠ "" then
      existing.filter (fun p => get_prop_sport_slug p ≠ sport_slug)
    else
      let label_lower := pyLower (pyOr out_label "")
      existing.filter (fun p => pyLower (pyOr p.sport "") ≠ label_lower)
  (remaining ++ new_props, sport_slug, out_label)

/-- Line 1856 of `src/main.py`:
`(payload.get("sport_label") or "").strip() or None`. -/
def endpointLabel (sport_label_raw : Option String) : Option String :=
  let l := pyStrip (pyOrO sport_label_raw "")
  if l = "" then none else some l

/-- `update_props` of `src/main.py` (`POST /update-props`), from the point
where the JSON body has been read.  The store is threaded explicitly; an
error leaves it untouched, exactly as the source raises before any save.
`raw = none` stands for a missing/non-dict/unrecognized `raw` field (the
two 400s of lines 1865–1889, folded into one here). -/
def update_props (st : Store) (now : Int) (sport : Option String)
    (sport_label_raw : Option String) (raw : Option ProviderRaw) :
    Store × Except HErr UpdateResp :=
  let sport_key := pyLower (pyOrO sport "")
  let sport_label := endpointLabel sport_label_raw
  if sport_key = "" then (st, .error ⟨400, "Missing \x27sport\x27 field."⟩)
  else if sport_key ≠ "extras" ∧ (sportsFind? sport_key).isNone then
    (st, .error ⟨400, "Invalid \x27sport\x27 field."⟩)
  else
    match raw with
    | none =>
        (st, .error ⟨400, "Could not recognize JSON format. Expected PrizePicks or Underdog payload."⟩)
    | some r =>
        let normed : Except String (List PropRec) :=
          match r with
          | .pp ppraw => normalize_prizepicks ppraw sport_key sport_label
          | .ud udraw => normalize_underdog udraw sport_key sport_label
        match normed with
        | .error e => (st, .error ⟨400, e⟩)
        | .ok new_props =>
            let existing := load_file_props_raw_or_empty st
            let merged := update_props_merge existing new_props sport_key sport_label
            let st2 := save_props merged.1
            let liveSt := get_current_props st2 now
            (liveSt.2,
             .ok { sport := merged.2.2
                   sport_key := merged.2.1
                   source := (match r with | .pp _ => "prizepicks" | .ud _ => "underdog")
                   count := new_props.length
                   total := liveSt.1.length })

/-! ## Export endpoint (`POST /export-data`) -/

structure ExportResp where
  text : String
  count : Nat
deriving DecidableEq, Repr

/-- One row of the export text. -/
def exportRow (p : PropRec) : String :=
  pyJoin ","
    [clean_csv_val p.sport, clean_csv_val p.player, clean_csv_val p.team,
     clean_csv_val p.opponent, clean_csv_val p.stat, lineStr p.line,
     clean_csv_val p.tier, clean_csv_val (gameTimeStr p.game_time)]

/-- `{str(s).lower() for s in sports}` (a Python set). -/
def exportRequestedKeys (sl : List String) : List String :=
  sl.foldl (fun acc s => setAdd acc (pyLower s)) []

/-- `{k for k in SPORTS.keys() if k in requested_keys}`. -/
def exportValidKeys (sl : List String) : List String :=
  (SPORTS.map (·.1)).filter (fun k => (exportRequestedKeys sl).contains k)

/-- `{str(t).lower() for t in tiers if t}`, defaulted to `ALLOWED_TIERS`
when empty. -/
def exportTierSet (tiers : List String) : List String :=
  let t := tiers.foldl (fun acc t => if t ≠ "" then setAdd acc (pyLower t) else acc) []
  if t.isEmpty then ALLOWED_TIERS else t

/-- `{SPORTS[k]["name"].lower() for k in valid_keys}`. -/
def exportSelectedNamesLower (sl : List String) : List String :=
  (exportValidKeys sl).filterMap (fun k => (sportsFind? k).map (fun c => pyLower c.name))

/-- The effective export cap: `payload.get("max") or 300`, `int(...)` with
fallback `300` on a parse error, and `300` again when non-positive
(lines 2145 and 2159–2164 of `src/main.py`). -/
def exportEffectiveMax (maxRaw : Option JNum) : Int :=
  let m0 : JNum := if jnumTruthy maxRaw then maxRaw.getD (.num ⟨300, 0⟩) else .num ⟨300, 0⟩
  let m : Int :=
    match pyIntOf? m0 with
    | some i => i
    | none => 300
  if m ≤ 0 then 300 else m

/-- The per-record selection test of the export filter loop. -/
def exportSelPred (sl tiers : List String) (p : PropRec) : Bool :=
  (exportSelectedNamesLower sl).contains (pyLower (pyOr p.sport "")) ∧
    (exportTierSet tiers).contains (pyLower (pyOr p.tier ""))

/-- `export_data` of `src/main.py` (`POST /export-data`).  `sports = none`
models a body whose `sports` is not a list. -/
def export_data (st : Store) (now : Int) (sports : Option (List String))
    (tiers : List String) (maxRaw : Option JNum) : Store × Except HErr ExportResp :=
  match sports with
  | none => (st, .error ⟨400, "Field \x27sports\x27 must be a non-empty list."⟩)
  | some sl =>
      if sl.isEmpty then (st, .error ⟨400, "Field \x27sports\x27 must be a non-empty list."⟩)
      else
        if (exportValidKeys sl).isEmpty then
          (st, .error ⟨400, "No valid sports keys provided."⟩)
        else
          let max_props := exportEffectiveMax maxRaw
          let served := get_current_props st now
          let filtered := served.1.filter (exportSelPred sl tiers)
          let filtered := sortBoard filtered
          let filtered :=
            if (filtered.length : Int) > max_props then filtered.take max_props.toNat
            else filtered
          (served.2,
           .ok { text := pyJoin "\n" (modelHeader :: filtered.map exportRow)
                 count := filtered.length })

section SanityChecks4

/-- A record named entirely by its player, for concrete boards. -/
def mkRec (pl : String) (sport : String) (slug : String) (gt : Option String := none)
    (tier : String := "standard") : PropRec :=
  { source := "uploaded", board := sport, league := sport, sport := sport,
    sport_slug := slug, player := pl, stat := "Points", market := "points",
    line := some ⟨105, 1⟩, game_time := gt, projection_type := "main", tier := tier }

example :
    build_model_page_text [mkRec "A" "NBA" "nba", mkRec "B" "NFL" "nfl"] "nba" none 1 150 =
      .ok (modelHeader ++ "\nNBA,A,,,Points,105e-1,standard,") := by decide

example :
    build_model_page_text [mkRec "A" "NBA" "nba"] "all" none 0 150 =
      .error ⟨400, "Page must be >= 1"⟩ := by decide

example :
    build_model_page_text [mkRec "A" "NBA" "nba"] "all" none 2 150 =
      .error ⟨404, "Page 2 out of range (total_pages=1)"⟩ := by decide

example :
    build_model_page_text [mkRec "A" "NBA" "nba"] "all" (some "goblin+weird") 1 150 =
      .error ⟨400, "Invalid tier \x27weird\x27"⟩ := by decide

example :
    (export_data (save_props [mkRec "A" "NBA" "nba", mkRec "B" "NFL" "nfl"]) 0
      (some ["nba"]) [] none).2 =
      .ok { text := modelHeader ++ "\nNBA,A,,,Points,105e-1,standard,", count := 1 } := by
  decide

example :
    (update_props (save_props [mkRec "A" "NBA" "nba", mkRec "B" "NFL" "nfl"]) 0
      (some "nba") none (some (.pp { data := [], included := [] }))).1 =
      save_props [mkRec "B" "NFL" "nfl"] := by decide

end SanityChecks4

/-! ## Derived definitions used by the theorems -/

/-- The `or` chain `attrs.get("odds_Type") or attrs.get("odds_type") or
attrs.get("oddsType") or attrs.get("tier")` that `_extract_tier_from_attrs`
matches on. -/
def tier_attr_value (attrs : PPAttrs) : Option String :=
  pyOrOO (pyOrOO (pyOrOO attrs.odds_Type attrs.odds_type) attrs.oddsType) attrs.tier

/-- The record-retention test of expiry pruning: keep a record whose
`game_time` is absent/empty/unparseable, or parses to an instant not
strictly before `now`. -/
def keepProp (now : Int) (p : PropRec) : Bool :=
  match parse_game_time p.game_time with
  | none => true
  | some gt => now ≤ gt

/-- The store after a sequence of reads of the current board at the given
instants. -/
def statesAfter (st : Store) : List Int → Store
  | [] => st
  | n :: ns => statesAfter (get_current_props st n).2 ns

/-! ## Helper lemmas -/

theorem pruneProps_fst (now : Int) (l : List PropRec) :
    (pruneProps now l).1 = l.filter (keepProp now) := by
  induction l with
  | nil => rfl
  | cons p rest ih =>
      simp only [pruneProps, List.filter, keepProp]
      cases h : parse_game_time p.game_time with
      | none => simpa [h] using ih
      | some gt =>
          by_cases hle : now ≤ gt
          · simpa [h, hle] using ih
          · simpa [h, hle] using ih

theorem pruneProps_snd (now : Int) (l : List PropRec) :
    (pruneProps now l).2 = false ↔ l.filter (keepProp now) = l := by
  induction l with
  | nil => simp [pruneProps]
  | cons p rest ih =>
      simp only [pruneProps, List.filter, keepProp]
      cases h : parse_game_time p.game_time with
      | none =>
          simpa [h] using ih
      | some gt =>
          by_cases hle : now ≤ gt
          · simpa [h, hle] using ih
          · simp only [h, hle]
            constructor
            · intro hfalse; cases hfalse
            · intro heq
              exfalso
              have hlen := congrArg List.length heq
              have : rest.length + 1 ≤ rest.length := by
                calc rest.length + 1 = (p :: rest).length := rfl
                  _ = (List.filter (keepProp now) rest).length := by
                        rw [← hlen]
                        simp [keepProp, h, hle]
                  _ ≤ rest.length := List.length_filter_le _ _
              omega

theorem get_current_props_fst (st : Store) (now : Int) :
    (get_current_props st now).1 =
      (load_file_props_raw_or_empty st).filter (keepProp now) := by
  unfold get_current_props
  by_cases h : (load_file_props_raw_or_empty st).isEmpty
  · have : load_file_props_raw_or_empty st = [] := List.isEmpty_iff.mp h
    simp [h, this]
  · by_cases h2 : (pruneProps now (load_file_props_raw_or_empty st)).2
    · simp [h, h2, pruneProps_fst]
    · simp [h, h2, pruneProps_fst]

theorem get_current_props_snd_of_changed (st : Store) (now : Int)
    (h : (load_file_props_raw_or_empty st).filter (keepProp now) ≠
      load_file_props_raw_or_empty st) :
    (get_current_props st now).2 =
      save_props ((load_file_props_raw_or_empty st).filter (keepProp now)) := by
  unfold get_current_props
  by_cases he : (load_file_props_raw_or_empty st).isEmpty
  · exact absurd (by simp [List.isEmpty_iff.mp he]) h
  · have h2 : (pruneProps now (load_file_props_raw_or_empty st)).2 = true := by
      by_contra hfalse
      exact h ((pruneProps_snd now _).mp (Bool.not_eq_true _ ▸ (by simpa using hfalse)))
    simp [he, h2, pruneProps_fst]

theorem keepProp_of_parse_none {p : PropRec} (h : parse_game_time p.game_time = none)
    (now : Int) : keepProp now p = true := by
  simp [keepProp, h]

theorem mem_load_get_current_props_snd {p : PropRec} {st : Store} (n : Int)
    (hmem : p ∈ load_file_props_raw_or_empty st)
    (hparse : parse_game_time p.game_time = none) :
    p ∈ load_file_props_raw_or_empty (get_current_props st n).2 := by
  unfold get_current_props
  by_cases he : (load_file_props_raw_or_empty st).isEmpty
  · simpa [he] using hmem
  · by_cases h2 : (pruneProps n (load_file_props_raw_or_empty st)).2
    · rw [if_neg (by simpa using he), if_pos h2]
      show p ∈ (pruneProps n (load_file_props_raw_or_empty st)).1
      rw [pruneProps_fst]
      exact List.mem_filter.mpr ⟨hmem, keepProp_of_parse_none hparse n⟩
    · rw [if_neg (by simpa using he), if_neg h2]
      exact hmem

theorem extract_tier_eq_match (attrs : PPAttrs) :
    extract_tier_from_attrs attrs =
      (match tier_attr_value attrs with
       | none => "standard"
       | some r =>
           if r = "" then "standard"
           else
             if pyContains (pyLower (pyStrip r)) "goblin" then "goblin"
             else if pyContains (pyLower (pyStrip r)) "demon" then "demon"
             else if pyContains (pyLower (pyStrip r)) "standard" ∨
                 pyContains (pyLower (pyStrip r)) "normal" then "standard"
             else "standard") := rfl

/-- Range of `_extract_tier_from_attrs`: always one of the three tiers. -/
theorem extract_tier_mem (attrs : PPAttrs) :
    extract_tier_from_attrs attrs = "standard" ∨
    extract_tier_from_attrs attrs = "goblin" ∨
    extract_tier_from_attrs attrs = "demon" := by
  rw [extract_tier_eq_match]
  cases tier_attr_value attrs with
  | none => exact Or.inl rfl
  | some r =>
      dsimp only
      by_cases h0 : r = ""
      · rw [if_pos h0]; exact Or.inl rfl
      · rw [if_neg h0]
        by_cases h1 : pyContains (pyLower (pyStrip r)) "goblin" = true
        · rw [if_pos h1]; exact Or.inr (Or.inl rfl)
        · rw [if_neg h1]
          by_cases h2 : pyContains (pyLower (pyStrip r)) "demon" = true
          · rw [if_pos h2]; exact Or.inr (Or.inr rfl)
          · rw [if_neg h2]
            split <;> exact Or.inl rfl

/-! ## Claim theorems -/

/-- C6: for every attributes dictionary, tier extraction is total into
\x7bgoblin, demon, standard\x7d and is decided by case-insensitive substring
match on the first truthy of `odds_Type`/`odds_type`/`oddsType`/`tier`
(the source's `or` chain): `goblin` wins, then `demon`, and everything
else — including values containing "standard"/"normal", other values, the
empty string and absence — is `standard`; in particular "Goblin" ↦ goblin,
"DEMON_BOOST" ↦ demon, "Standard" ↦ standard, "weird" ↦ standard,
absent ↦ standard. -/
theorem c6_tier_extraction :
    (∀ attrs : PPAttrs,
      (extract_tier_from_attrs attrs = "standard" ∨
       extract_tier_from_attrs attrs = "goblin" ∨
       extract_tier_from_attrs attrs = "demon") ∧
      (∀ v : String, tier_attr_value attrs = some v → v ≠ "" →
        extract_tier_from_attrs attrs =
          (if pyContains (pyLower (pyStrip v)) "goblin" then "goblin"
           else if pyContains (pyLower (pyStrip v)) "demon" then "demon"
           else "standard")) ∧
      ((tier_attr_value attrs = none ∨ tier_attr_value attrs = some "") →
        extract_tier_from_attrs attrs = "standard")) ∧
    extract_tier_from_attrs { odds_Type := some "Goblin" } = "goblin" ∧
    extract_tier_from_attrs { odds_Type := some "DEMON_BOOST" } = "demon" ∧
    extract_tier_from_attrs { odds_Type := some "Standard" } = "standard" ∧
    extract_tier_from_attrs { odds_Type := some "weird" } = "standard" ∧
    extract_tier_from_attrs {} = "standard" := by
  refine ⟨?_, by decide, by decide, by decide, by decide, by decide⟩
  intro attrs
  refine ⟨extract_tier_mem attrs, ?_, ?_⟩
  · intro v hv hne
    rw [extract_tier_eq_match, hv]
    dsimp only
    rw [if_neg hne]
    by_cases h1 : pyContains (pyLower (pyStrip v)) "goblin" = true
    · rw [if_pos h1, if_pos h1]
    · rw [if_neg h1, if_neg h1]
      by_cases h2 : pyContains (pyLower (pyStrip v)) "demon" = true
      · rw [if_pos h2, if_pos h2]
      · rw [if_neg h2, if_neg h2]
        split <;> rfl
  · intro h
    rcases h with h | h <;> rw [extract_tier_eq_match, h]
    dsimp only
    rw [if_pos rfl]

/-- Witness for C6: the cascade applied at a concrete truthy attribute
value. -/
theorem c6_tier_extraction_witness :
    (tier_attr_value { odds_type := some " GobLin Deluxe " } =
       some " GobLin Deluxe " ∧ " GobLin Deluxe " ≠ "") ∧
    extract_tier_from_attrs { odds_type := some " GobLin Deluxe " } = "goblin" := by
  refine ⟨⟨by decide, by decide⟩, ?_⟩
  have h := (c6_tier_extraction.1 { odds_type := some " GobLin Deluxe " }).2.1
    " GobLin Deluxe " (by decide) (by decide)
  rw [h]
  decide

/-- C3: a read of the current board returns exactly the stored records
whose parsed `game_time` is not strictly before `now` together with those
whose `game_time` is absent or unparseable (`keepProp`), and whenever at
least one record was dropped, the pruned list is saved back (to both the
primary and the backup file) before being returned. -/
theorem c3_expiry_pruning (st : Store) (now : Int) :
    (get_current_props st now).1 =
      (load_file_props_raw_or_empty st).filter (keepProp now) ∧
    ((load_file_props_raw_or_empty st).filter (keepProp now) ≠
        load_file_props_raw_or_empty st →
      (get_current_props st now).2 =
        save_props ((load_file_props_raw_or_empty st).filter (keepProp now))) ∧
    save_props ((load_file_props_raw_or_empty st).filter (keepProp now)) =
      { dataFile := some ((load_file_props_raw_or_empty st).filter (keepProp now)),
        backupFile := some ((load_file_props_raw_or_empty st).filter (keepProp now)) } :=
  ⟨get_current_props_fst st now,
   fun h => get_current_props_snd_of_changed st now h, rfl⟩

def pastRec : PropRec := mkRec "Old" "NBA" "nba" (some "2026-10-12T09:00:00Z")

def futureRec : PropRec := mkRec "New" "NBA" "nba" (some "2026-10-12T11:00:00Z")

def c3Store : Store := save_props [pastRec, futureRec]

/-- 2026-10-12T10:00:00Z, between the two demo records. -/
def c3Now : Int := daysFromCivil 2026 10 12 * 86400 + 36000

/-- Witness for C3: one record an hour in the past and one an hour in the
future; the read returns only the future one and persists the pruned
board. -/
theorem c3_expiry_pruning_witness :
    ((load_file_props_raw_or_empty c3Store).filter (keepProp c3Now) ≠
       load_file_props_raw_or_empty c3Store) ∧
    (get_current_props c3Store c3Now).1 = [futureRec] ∧
    (get_current_props c3Store c3Now).2 = save_props [futureRec] := by
  refine ⟨by decide, ?_, ?_⟩
  · rw [(c3_expiry_pruning c3Store c3Now).1]; decide
  · rw [(c3_expiry_pruning c3Store c3Now).2.1 (by decide)]; decide

/-- C4: a stored record whose `game_time` is absent, empty, or fails to
parse (`parse_game_time ... = none`, which covers all three) is retained
by every read of the current board, after any number of earlier reads. -/
theorem c4_missing_game_time_retained (st : Store) (ns : List Int) (now : Int)
    (p : PropRec) (hmem : p ∈ load_file_props_raw_or_empty st)
    (hparse : parse_game_time p.game_time = none) :
    p ∈ (get_current_props (statesAfter st ns) now).1 := by
  have hload : p ∈ load_file_props_raw_or_empty (statesAfter st ns) := by
    induction ns generalizing st with
    | nil => exact hmem
    | cons n ns ih =>
        exact ih _ (mem_load_get_current_props_snd n hmem hparse)
  rw [get_current_props_fst]
  exact List.mem_filter.mpr ⟨hload, keepProp_of_parse_none hparse now⟩

def noTimeRec : PropRec := mkRec "NoTime" "NFL" "nfl" none

/-- Witness for C4: a record with no `game_time` survives three successive
reads. -/
theorem c4_missing_game_time_retained_witness :
    noTimeRec ∈ load_file_props_raw_or_empty (save_props [noTimeRec, pastRec]) ∧
    parse_game_time noTimeRec.game_time = none ∧
    noTimeRec ∈
      (get_current_props
        (statesAfter (save_props [noTimeRec, pastRec]) [c3Now, c3Now, c3Now]) c3Now).1 :=
  ⟨by decide, by decide,
   c4_missing_game_time_retained _ _ _ _ (by decide) (by decide)⟩

/-- C1: merging a successfully normalized non-empty batch whose records all
carry sport slug `S` (necessarily non-empty for a normalized batch)
replaces exactly the stored records with slug `S`: the combined board is
the previously stored records whose slug differs from `S`, in order,
followed by the new batch, and saving it writes that list to both files. -/
theorem c1_merge_by_sport (existing new_props : List PropRec)
    (sport_key : String) (sport_label : Option String) (S : String)
    (hne : new_props ≠ [])
    (hslug : ∀ p ∈ new_props, get_prop_sport_slug p = S)
    (hS : S ≠ "") :
    (update_props_merge existing new_props sport_key sport_label).1 =
      existing.filter (fun p => get_prop_sport_slug p ≠ S) ++ new_props ∧
    save_props (update_props_merge existing new_props sport_key sport_label).1 =
      { dataFile :=
          some (existing.filter (fun p => get_prop_sport_slug p ≠ S) ++ new_props),
        backupFile :=
          some (existing.filter (fun p => get_prop_sport_slug p ≠ S) ++ new_props) } := by
  cases new_props with
  | nil => exact absurd rfl hne
  | cons p rest =>
      have hp : get_prop_sport_slug p = S := hslug p (List.mem_cons_self p rest)
      have h1 :
          (update_props_merge existing (p :: rest) sport_key sport_label).1 =
            existing.filter (fun q => get_prop_sport_slug q ≠ S) ++ p :: rest := by
        unfold update_props_merge
        dsimp only
        rw [hp, if_pos hS]
      exact ⟨h1, by rw [h1]; rfl⟩

def c1Existing : List PropRec :=
  [mkRec "a1" "NBA" "nba", mkRec "a2" "NBA" "nba", mkRec "a3" "NBA" "nba",
   mkRec "b1" "NFL" "nfl", mkRec "b2" "NFL" "nfl"]

def c1New : List PropRec :=
  [mkRec "n1" "NBA" "nba", mkRec "n2" "NBA" "nba", mkRec "n3" "NBA" "nba",
   mkRec "n4" "NBA" "nba", mkRec "n5" "NBA" "nba"]

/-- Witness for C1: uploading 5 `nba` records to a board of 3 `nba` and 2
`nfl` records leaves the 2 `nfl` records followed by the 5 new ones. -/
theorem c1_merge_by_sport_witness :
    (c1New ≠ [] ∧ (∀ p ∈ c1New, get_prop_sport_slug p = "nba") ∧ "nba" ≠ "") ∧
    (update_props_merge c1Existing c1New "nba" none).1 =
      [mkRec "b1" "NFL" "nfl", mkRec "b2" "NFL" "nfl"] ++ c1New := by
  refine ⟨⟨by decide, by decide, by decide⟩, ?_⟩
  rw [(c1_merge_by_sport c1Existing c1New "nba" none "nba"
    (by decide) (by decide) (by decide)).1]
  decide

/-- A key found in the registry is a lower-case registry key distinct from
`""` and `"extras"`, and its configured league id is non-empty. -/
theorem sportsFind?_key_facts {k : String} {cfg : SportCfg}
    (h : sportsFind? k = some cfg) :
    pyLower k = k ∧ k ≠ "" ∧ k ≠ "extras" ∧ cfg.league_id ≠ "" := by
  have h' : (SPORTS.find? (fun e => e.1 = k)).map (fun e => e.2) = some cfg := h
  obtain ⟨e, hfe, hg⟩ := Option.map_eq_some'.mp h'
  have hpe : e.1 = k := by simpa using List.find?_some hfe
  have hmem := List.mem_of_find?_eq_some hfe
  subst hpe
  fin_cases hmem <;> rw [← hg] <;>
    exact ⟨by decide, by decide, by decide, by decide⟩

/-- The league-mismatch branch of `normalize_prizepicks_core`. -/
theorem normalize_prizepicks_core_mismatch (raw : PPRaw)
    (name slug expected : String) (hexp : expected ≠ "")
    (hne : collectLeagueIds raw.data ≠ [])
    (hdiff : collectLeagueIds raw.data ≠ [expected]) :
    normalize_prizepicks_core raw name (some expected) slug =
      .error (leagueMismatchMsg name expected (collectLeagueIds raw.data)) := by
  have hc : optTruthy (some expected) = true ∧ collectLeagueIds raw.data ≠ [] ∧
      collectLeagueIds raw.data ≠ [(some expected).getD ""] :=
    ⟨by simpa [optTruthy] using hexp, hne, by simpa using hdiff⟩
  unfold normalize_prizepicks_core
  rw [if_pos hc]
  rfl

/-- C2: a PrizePicks payload whose collected league ids form a non-empty
set different from the declared registry sport's expected league id makes
`normalize_prizepicks` fail with the league-mismatch error, and the upload
endpoint then returns a 400 carrying that message with the stored board
untouched. -/
theorem c2_league_mismatch (st : Store) (now : Int) (raw : PPRaw)
    (sport sport_label_raw : Option String) (cfg : SportCfg)
    (hfind : sportsFind? (pyLower (pyOrO sport "")) = some cfg)
    (hne : collectLeagueIds raw.data ≠ [])
    (hdiff : collectLeagueIds raw.data ≠ [cfg.league_id]) :
    (∀ lbl : Option String,
      normalize_prizepicks raw (pyLower (pyOrO sport "")) lbl =
        .error (leagueMismatchMsg cfg.name cfg.league_id (collectLeagueIds raw.data))) ∧
    update_props st now sport sport_label_raw (some (.pp raw)) =
      (st, .error ⟨400,
        leagueMismatchMsg cfg.name cfg.league_id (collectLeagueIds raw.data)⟩) := by
  obtain ⟨hlow, hne', hx, hlid⟩ := sportsFind?_key_facts hfind
  have hnorm : ∀ lbl : Option String,
      normalize_prizepicks raw (pyLower (pyOrO sport "")) lbl =
        .error (leagueMismatchMsg cfg.name cfg.league_id (collectLeagueIds raw.data)) := by
    intro lbl
    unfold normalize_prizepicks
    rw [hlow, if_neg hx, hfind]
    exact normalize_prizepicks_core_mismatch raw cfg.name _ cfg.league_id hlid hne hdiff
  refine ⟨hnorm, ?_⟩
  unfold update_props
  rw [if_neg hne', if_neg (fun hc => by
    rw [hfind] at hc
    exact absurd hc.2 (by simp))]
  dsimp only
  rw [hnorm _]

/-- A one-projection payload referencing league id 7 (NBA) only. -/
def c2Raw : PPRaw :=
  { data := [{ id := some "p1", attributes := { league_id := some "7" } }]
    included := [] }

/-- Witness for C2: declaring `NFL` (expected league id 9) while the
payload references league id 7 yields a 400 league-mismatch error and
leaves the store unchanged. -/
theorem c2_league_mismatch_witness :
    (sportsFind? (pyLower (pyOrO (some "NFL") "")) = some ⟨"NFL", "9"⟩ ∧
     collectLeagueIds c2Raw.data ≠ [] ∧ collectLeagueIds c2Raw.data ≠ ["9"]) ∧
    update_props (save_props [noTimeRec]) 0 (some "NFL") none (some (.pp c2Raw)) =
      (save_props [noTimeRec],
       .error ⟨400, leagueMismatchMsg "NFL" "9" ["7"]⟩) := by
  refine ⟨⟨by decide, by decide, by decide⟩, ?_⟩
  rw [(c2_league_mismatch (save_props [noTimeRec]) 0 c2Raw (some "NFL") none
    ⟨"NFL", "9"⟩ (by decide) (by decide) (by decide)).2]
  decide

/-- Every record emitted by the PrizePicks projection loop carries the
call's sport name and slug, a non-empty player, a parsed line, a non-empty
stat, and one of the three tiers. -/
theorem ppProjToProp?_fields {sport_name sport_slug : String}
    {players : List (String × PlayerInfo)} {games : List (String × GameInfo)}
    {teams : List (String × TeamInfo)} {proj : PPProj} {p : PropRec}
    (h : ppProjToProp? sport_name sport_slug players games teams proj = some p) :
    p.sport = sport_name ∧ p.sport_slug = sport_slug ∧ p.player ≠ "" ∧
      (∃ f, p.line = some f) ∧ p.stat ≠ "" ∧
      (p.tier = "standard" ∨ p.tier = "goblin" ∨ p.tier = "demon") := by
  unfold ppProjToProp? at h
  split at h
  · exact Option.noConfusion h
  · split at h
    · exact Option.noConfusion h
    · dsimp only at h
      split at h
      · exact Option.noConfusion h
      · split at h
        · exact Option.noConfusion h
        · rename_i hgate
          cases h
          push_neg at hgate
          refine ⟨rfl, rfl, ?_, ⟨_, rfl⟩, ?_, extract_tier_mem _⟩
          · simpa [pyTruthy] using hgate.1
          · simpa [pyTruthy] using hgate.2

/-- `a or b` for strings is non-empty unless both are empty. -/
theorem pyOr_ne_empty {a b : String} (h : ¬(a = "" ∧ b = "")) : pyOr a b ≠ "" := by
  unfold pyOr
  by_cases ha : a = ""
  · rw [if_pos ha]; exact fun hb => h ⟨ha, hb⟩
  · rw [if_neg ha]; exact ha

/-- Every record emitted by the Underdog over/under loop carries the call's
sport name and slug, a non-empty player, a parsed line, a non-empty stat,
and tier `standard`. -/
theorem udLineToProp?_fields {sport_name sport_slug : String}
    {gamesD : List (String × UDGame)} {appearancesD : List (String × UDAppearance)}
    {line : UDLine} {p : PropRec}
    (h : udLineToProp? sport_name sport_slug gamesD appearancesD line = some p) :
    p.sport = sport_name ∧ p.sport_slug = sport_slug ∧ p.player ≠ "" ∧
      (∃ f, p.line = some f) ∧ p.stat ≠ "" ∧ p.tier = "standard" := by
  unfold udLineToProp? at h
  dsimp only at h
  repeat' split at h
  any_goals exact Option.noConfusion h
  all_goals
    (cases h;
     exact ⟨rfl, rfl, by assumption, ⟨_, rfl⟩, pyOr_ne_empty (by assumption), rfl⟩)

theorem normalize_prizepicks_core_ok {raw : PPRaw} {name slug : String}
    {expected : Option String} {props : List PropRec}
    (h : normalize_prizepicks_core raw name expected slug = .ok props) :
    ∀ p ∈ props, p.sport = name ∧ p.sport_slug = slug ∧ p.player ≠ "" ∧
      (∃ f, p.line = some f) ∧ p.stat ≠ "" ∧
      (p.tier = "standard" ∨ p.tier = "goblin" ∨ p.tier = "demon") := by
  unfold normalize_prizepicks_core at h
  dsimp only at h
  split at h
  · exact Except.noConfusion h
  · injection h with h2
    subst h2
    intro p hp
    obtain ⟨proj, _, hsome⟩ := List.mem_filterMap.mp hp
    exact ppProjToProp?_fields hsome

theorem normalize_underdog_core_ok {raw : UDRaw} {name slug : String}
    {expected : Option String} {props : List PropRec}
    (h : normalize_underdog_core raw name expected slug = .ok props) :
    ∀ p ∈ props, p.sport = name ∧ p.sport_slug = slug ∧ p.player ≠ "" ∧
      (∃ f, p.line = some f) ∧ p.stat ≠ "" ∧
      (p.tier = "standard" ∨ p.tier = "goblin" ∨ p.tier = "demon") := by
  unfold normalize_underdog_core at h
  dsimp only at h
  split at h
  · exact Except.noConfusion h
  · injection h with h2
    subst h2
    intro p hp
    obtain ⟨l, _, hsome⟩ := List.mem_filterMap.mp hp
    obtain ⟨h1, h2, h3, h4, h5, h6⟩ := udLineToProp?_fields hsome
    exact ⟨h1, h2, h3, h4, h5, Or.inl h6⟩

/-- C10: every record produced by a single call of `normalize_prizepicks`
or `normalize_underdog` carries one slug fixed for the whole call, a
non-empty player, a parsed (float) line, a non-empty stat, and a tier in
\x7bstandard, goblin, demon\x7d; entries failing these checks are skipped,
never emitted. -/
theorem c10_normalizer_invariants :
    (∀ (raw : PPRaw) (k : String) (lbl : Option String) (props : List PropRec),
      normalize_prizepicks raw k lbl = .ok props →
      ∃ name slug, ∀ p ∈ props,
        p.sport = name ∧ p.sport_slug = slug ∧ p.player ≠ "" ∧
        (∃ f, p.line = some f) ∧ p.stat ≠ "" ∧
        (p.tier = "standard" ∨ p.tier = "goblin" ∨ p.tier = "demon")) ∧
    (∀ (raw : UDRaw) (k : String) (lbl : Option String) (props : List PropRec),
      normalize_underdog raw k lbl = .ok props →
      ∃ name slug, ∀ p ∈ props,
        p.sport = name ∧ p.sport_slug = slug ∧ p.player ≠ "" ∧
        (∃ f, p.line = some f) ∧ p.stat ≠ "" ∧
        (p.tier = "standard" ∨ p.tier = "goblin" ∨ p.tier = "demon")) := by
  constructor
  · intro raw k lbl props h
    unfold normalize_prizepicks at h
    dsimp only at h
    split at h
    · exact ⟨_, _, normalize_prizepicks_core_ok h⟩
    · split at h
      · exact Except.noConfusion h
      · exact ⟨_, _, normalize_prizepicks_core_ok h⟩
  · intro raw k lbl props h
    unfold normalize_underdog at h
    dsimp only at h
    split at h
    · split at h
      · exact Except.noConfusion h
      · split at h
        · exact Except.noConfusion h
        · exact ⟨_, _, normalize_underdog_core_ok h⟩
    · split at h
      · exact Except.noConfusion h
      · exact ⟨_, _, normalize_underdog_core_ok h⟩

def ppDemoProp : PropRec :=
  { id := some "proj1", source := "prizepicks", board := "NFL", league := "NFL",
    sport := "NFL", sport_slug := "nfl", player := "John Smith", team := "KC",
    opponent := "BUF", stat := "Passing Yards", market := "passing_yards",
    line := some ⟨2555, 1⟩, game_time := some "2030-01-01T18:00:00Z",
    projection_type := "main", tier := "standard" }

def udDemoProp : PropRec :=
  { id := some "ou1", source := "underdog", board := "NBA", league := "NBA",
    sport := "NBA", sport_slug := "nba", player := "Jane", team := "",
    opponent := "BOS @ LAL", stat := "Points", market := "points",
    line := some ⟨105, 1⟩, game_time := some "2030-02-01T00:00:00Z",
    projection_type := "main", tier := "standard",
    ud_american_over := some "-110", ud_american_under := some "-120" }

/-- Witness for C10: the invariants instantiated at one concrete payload
per provider. -/
theorem c10_normalizer_invariants_witness :
    (normalize_prizepicks ppDemoRaw "nfl" none = .ok [ppDemoProp] ∧
     normalize_underdog udDemoRaw "nba" none = .ok [udDemoProp]) ∧
    (∃ name slug, ∀ p ∈ [ppDemoProp],
      p.sport = name ∧ p.sport_slug = slug ∧ p.player ≠ "" ∧
      (∃ f, p.line = some f) ∧ p.stat ≠ "" ∧
      (p.tier = "standard" ∨ p.tier = "goblin" ∨ p.tier = "demon")) ∧
    (∃ name slug, ∀ p ∈ [udDemoProp],
      p.sport = name ∧ p.sport_slug = slug ∧ p.player ≠ "" ∧
      (∃ f, p.line = some f) ∧ p.stat ≠ "" ∧
      (p.tier = "standard" ∨ p.tier = "goblin" ∨ p.tier = "demon")) :=
  ⟨⟨by decide, by decide⟩,
   c10_normalizer_invariants.1 ppDemoRaw "nfl" none [ppDemoProp] (by decide),
   c10_normalizer_invariants.2 udDemoRaw "nba" none [udDemoProp] (by decide)⟩

/-- The options scan never picks up a player name when no option carries a
non-empty `selection_header`. -/
theorem scanOptions_fst_of_no_header {opts : List UDOption}
    (h : ∀ opt ∈ opts, pyOrO opt.selection_header "" = "") (o u : Option String) :
    (scanOptions opts ("", o, u)).1 = "" := by
  induction opts generalizing o u with
  | nil => rfl
  | cons opt rest ih =>
      unfold scanOptions
      dsimp only
      rw [h opt (List.mem_cons_self _ _)]
      rw [if_neg (by simp)]
      exact ih (fun q hq => h q (List.mem_cons_of_mem _ hq)) _ _

/-- Counterexample for C7 as stated: an active over/under entry with no
`selection_header` anywhere and title `"Jane Doe O/U Points"` normalizes to
player `"Jane"`, not `"Jane Doe"`. -/
theorem c7_player_fallback_counterexample :
    (∀ opt ∈ udDemoLine.options, pyOrO opt.selection_header "" = "") ∧
    pyOrO (udDemoLine.over_under.bind (fun x => x.title)) "" = "Jane Doe O/U Points" ∧
    (normalize_underdog udDemoRaw "nba").toOption.map (List.map (fun p => p.player)) =
      some ["Jane"] ∧ "Jane" ≠ "Jane Doe" := by decide

/-- C7 (amended): when no option carries a non-empty `selection_header` and
`over_under.title` is `"Jane Doe O/U Points"`, the fallback takes the part
of the title before `" O/U"`, strips it, and then also drops the last
space-separated word, so the normalized player name is `"Jane"` (the
`rsplit(" ", 1)[0]` step of the source). -/
theorem c7_player_fallback_amended
    (games : List UDGame) (apps : List UDAppearance) (l : UDLine)
    (hnoheader : ∀ opt ∈ l.options, pyOrO opt.selection_header "" = "")
    (htitle : pyOrO (l.over_under.bind (fun x => x.title)) "" = "Jane Doe O/U Points")
    (hstatus : pyLower (pyOrO l.status "") = "" ∨ pyLower (pyOrO l.status "") = "active")
    (hstat : ¬(pyOrO ((l.over_under.bind (fun x => x.appearance_stat)).bind
        (fun x => x.display_stat)) "" = "" ∧
      pyOrO ((l.over_under.bind (fun x => x.appearance_stat)).bind
        (fun x => x.stat)) "" = ""))
    (hline : ∃ f, pyFloatOf? l.stat_value = some f)
    (hsport : collectUdSportIds (udGamesDict games) = [] ∨
      collectUdSportIds (udGamesDict games) = ["NBA"]) :
    ∃ rec, normalize_underdog ⟨games, apps, [l]⟩ "nba" none = .ok [rec] ∧
      rec.player = "Jane" := by
  obtain ⟨f, hf⟩ := hline
  have hentry : ∃ rec, udLineToProp? "NBA" "nba" (udGamesDict games)
      (udAppearancesDict apps) l = some rec ∧ rec.player = "Jane" := by
    unfold udLineToProp?
    dsimp only
    rw [if_neg (by rcases hstatus with h | h <;> simp [h])]
    rw [if_neg hstat, hf]
    dsimp only
    rw [scanOptions_fst_of_no_header hnoheader]
    rw [htitle]
    rw [if_pos (show ("" : String) = "" from rfl)]
    rw [if_pos (show pyContains "Jane Doe O/U Points" " O/U" = true from by decide)]
    rw [show pyOr (pyRSplitSpaceHead (pyStrip (pySplitFirst "Jane Doe O/U Points" " O/U")))
      (pyStrip (pySplitFirst "Jane Doe O/U Points" " O/U")) = "Jane" from by decide]
    rw [if_neg (show ¬("Jane" = "") from by decide)]
    exact ⟨_, rfl, rfl⟩
  obtain ⟨rec, hrec, hpl⟩ := hentry
  refine ⟨rec, ?_, hpl⟩
  have hkey : normalize_underdog ⟨games, apps, [l]⟩ "nba" none =
      normalize_underdog_core ⟨games, apps, [l]⟩ "NBA" (some "NBA") "nba" := rfl
  rw [hkey]
  unfold normalize_underdog_core
  dsimp only
  rw [if_pos (by decide)]
  have hmm : (if collectUdSportIds (udGamesDict games) ≠ [] ∧
      collectUdSportIds (udGamesDict games) ≠ [(some "NBA").getD ""] then
        some (sportMismatchMsg "NBA" ((some "NBA").getD "")
          (collectUdSportIds (udGamesDict games)))
      else none) = none := by
    rcases hsport with h | h <;> simp [h]
  rw [hmm]
  dsimp only
  simp only [List.filterMap_cons, List.filterMap_nil, hrec]

/-- An extras-tagged PrizePicks normalization (expected league id `None`)
never raises the league check. -/
theorem normalize_prizepicks_core_none_ok (raw : PPRaw) (name slug : String) :
    ∃ props, normalize_prizepicks_core raw name none slug = .ok props := by
  unfold normalize_prizepicks_core
  rw [if_neg (by simp [optTruthy])]
  exact ⟨_, rfl⟩

/-- Counterexample for C9 as stated: a PrizePicks upload with
`sport = "extras"` and no `sport_label` succeeds (display name defaults to
`"Extras"`), rather than failing with a client error. -/
theorem c9_extras_label_counterexample :
    (update_props (save_props []) 0 (some "extras") none (some (.pp ppDemoRaw))).2 =
      .ok { sport := "Extras", sport_key := "extras", source := "prizepicks",
            count := 1, total := 1 } := by decide

/-- C9 (amended): only Underdog extras uploads require a non-empty
`sport_label` — absent or empty yields the 400 missing-label error with
the store untouched; a PrizePicks extras upload without a label succeeds
and its records carry the default display name `"Extras"` (slug
`"extras"`); when a non-empty label is supplied, either provider's records
carry it as the display sport name with the slug derived from it. -/
theorem c9_extras_label_amended :
    (∀ (st : Store) (now : Int) (lblRaw : Option String) (udraw : UDRaw),
      pyStrip (pyOrO lblRaw "") = "" →
      update_props st now (some "extras") lblRaw (some (.ud udraw)) =
        (st, .error ⟨400, udMissingLabelMsg⟩)) ∧
    (∀ (st : Store) (now : Int) (raw : PPRaw),
      ∃ resp, (update_props st now (some "extras") none (some (.pp raw))).2 =
        .ok resp) ∧
    (∀ (raw : PPRaw) (props : List PropRec),
      normalize_prizepicks raw "extras" none = .ok props →
      ∀ p ∈ props, p.sport = "Extras" ∧ p.sport_slug = "extras") ∧
    (∀ (raw : PPRaw) (lbl : String) (props : List PropRec),
      pyStrip lbl = lbl → lbl ≠ "" →
      normalize_prizepicks raw "extras" (some lbl) = .ok props →
      ∀ p ∈ props, p.sport = lbl ∧ p.sport_slug = sport_slug_from_label lbl) ∧
    (∀ (raw : UDRaw) (lbl : String) (props : List PropRec),
      pyStrip lbl = lbl → lbl ≠ "" →
      normalize_underdog raw "extras" (some lbl) = .ok props →
      ∀ p ∈ props, p.sport = lbl ∧ p.sport_slug = sport_slug_from_label lbl) := by
  refine ⟨?_, ?_, ?_, ?_, ?_⟩
  · intro st now lblRaw udraw hlbl
    unfold update_props endpointLabel
    rw [hlbl]
    rfl
  · intro st now raw
    obtain ⟨props, hn⟩ := normalize_prizepicks_core_none_ok raw "Extras"
      (sport_slug_from_label "Extras")
    have heq : normalize_prizepicks raw "extras" none =
        normalize_prizepicks_core raw "Extras" none (sport_slug_from_label "Extras") := rfl
    unfold update_props
    rw [show pyLower (pyOrO (some "extras") "") = "extras" from by decide]
    rw [if_neg (by decide), if_neg (by simp)]
    dsimp only
    rw [show endpointLabel none = none from rfl, heq, hn]
    exact ⟨_, rfl⟩
  · intro raw props h p hp
    have heq : normalize_prizepicks raw "extras" none =
        normalize_prizepicks_core raw "Extras" none (sport_slug_from_label "Extras") := rfl
    rw [heq] at h
    have := normalize_prizepicks_core_ok h p hp
    exact ⟨this.1, by rw [this.2.1]; decide⟩
  · intro raw lbl props hstrip hne h p hp
    have heq : normalize_prizepicks raw "extras" (some lbl) =
        normalize_prizepicks_core raw lbl none (sport_slug_from_label lbl) := by
      unfold normalize_prizepicks
      rw [show pyLower "extras" = "extras" from by decide, if_pos rfl]
      rw [show pyOrO (some lbl) "Extras" = if lbl = "" then "Extras" else lbl from rfl]
      rw [if_neg hne, hstrip]
      rw [show pyOr lbl "Extras" = if lbl = "" then "Extras" else lbl from rfl]
      rw [if_neg hne]
    rw [heq] at h
    have := normalize_prizepicks_core_ok h p hp
    exact ⟨this.1, this.2.1⟩
  · intro raw lbl props hstrip hne h p hp
    have heq : normalize_underdog raw "extras" (some lbl) =
        normalize_underdog_core raw lbl none (sport_slug_from_label lbl) := by
      unfold normalize_underdog
      rw [show pyLower "extras" = "extras" from by decide, if_pos rfl]
      rw [if_neg (by simp [optTruthy, hne])]
      simp only [Option.getD_some]
      rw [hstrip, if_neg hne]
    rw [heq] at h
    have := normalize_underdog_core_ok h p hp
    exact ⟨this.1, this.2.1⟩

def ppBadProp : PropRec :=
  { id := some "proj1", source := "prizepicks", board := "Badminton",
    league := "Badminton", sport := "Badminton", sport_slug := "badminton",
    player := "John Smith", team := "KC", opponent := "BUF",
    stat := "Passing Yards", market := "passing_yards",
    line := some ⟨2555, 1⟩, game_time := some "2030-01-01T18:00:00Z",
    projection_type := "main", tier := "standard" }

/-- Witness for the amended C9, at one concrete upload per part. -/
theorem c9_extras_label_amended_witness :
    update_props (save_props []) 0 (some "extras") none (some (.ud udDemoRaw)) =
      (save_props [], .error ⟨400, udMissingLabelMsg⟩) ∧
    (∃ resp, (update_props (save_props []) 0 (some "extras") none
        (some (.pp ppDemoRaw))).2 = .ok resp) ∧
    (∀ p ∈ [ppBadProp],
      p.sport = "Badminton" ∧ p.sport_slug = sport_slug_from_label "Badminton") :=
  ⟨c9_extras_label_amended.1 (save_props []) 0 none udDemoRaw (by decide),
   c9_extras_label_amended.2.1 (save_props []) 0 ppDemoRaw,
   c9_extras_label_amended.2.2.2.1 ppDemoRaw "Badminton" [ppBadProp]
     (by decide) (by decide) (by decide)⟩

/-- Witness for the amended C7, at the concrete demo entry. -/
theorem c7_player_fallback_amended_witness :
    ((∀ opt ∈ udDemoLine.options, pyOrO opt.selection_header "" = "") ∧
     pyOrO (udDemoLine.over_under.bind (fun x => x.title)) "" =
       "Jane Doe O/U Points") ∧
    (∃ rec, normalize_underdog
        ⟨udDemoRaw.games, udDemoRaw.appearances, [udDemoLine]⟩ "nba" none =
        .ok [rec] ∧ rec.player = "Jane") :=
  ⟨⟨by decide, by decide⟩,
   c7_player_fallback_amended udDemoRaw.games udDemoRaw.appearances udDemoLine
     (by decide) (by decide) (by decide) (by decide)
     ⟨⟨105, 1⟩, by decide⟩ (by decide)⟩

/-- C5: on the paged model board with a non-empty filtered set of N records
and page size P ≥ 1: a page below 1 is a 400 error; a page in
1..⌈N/P⌉ returns exactly the records of the consecutive slice
`filtered[(page-1)·P : page·P]` (of size P, the last page possibly
smaller, as the `min` equation states); a page above ⌈N/P⌉ is a 404
whose detail reports the total page count. -/
theorem c5_pagination (all_props : List PropRec) (sport : String)
    (tiers_str : Option String) (filtered : List PropRec) (page page_size : Int)
    (hf : filter_props_for_board all_props sport tiers_str = .ok filtered)
    (hN : 0 < filtered.length) (hP : 1 ≤ page_size) :
    (page < 1 → build_model_page_text all_props sport tiers_str page page_size =
        .error ⟨400, "Page must be >= 1"⟩) ∧
    (1 ≤ page → page ≤ ((filtered.length : Int) + page_size - 1).ediv page_size →
      build_model_page_text all_props sport tiers_str page page_size =
        .ok (pyJoin "\n" (modelHeader ::
          ((filtered.drop ((page - 1) * page_size).toNat).take page_size.toNat).map
            modelRow)) ∧
      ((filtered.drop ((page - 1) * page_size).toNat).take page_size.toNat).length =
        min page_size.toNat (filtered.length - ((page - 1) * page_size).toNat)) ∧
    (((filtered.length : Int) + page_size - 1).ediv page_size < page →
      build_model_page_text all_props sport tiers_str page page_size =
        .error ⟨404, pageOutOfRangeMsg page
          (((filtered.length : Int) + page_size - 1).ediv page_size)⟩) := by
  have hlen0 : ¬((filtered.length : Int) = 0) := by
    exact_mod_cast Nat.pos_iff_ne_zero.mp hN
  refine ⟨?_, ?_, ?_⟩
  · intro hlt
    unfold build_model_page_text
    rw [if_pos hlt]
  · intro h1 h2
    unfold build_model_page_text
    rw [if_neg (not_lt.mpr h1), hf]
    dsimp only
    rw [if_neg hlen0, if_neg (not_lt.mpr h2)]
    exact ⟨rfl, by simp [List.length_take, List.length_drop]⟩
  · intro h3
    have htp1 : 1 ≤ ((filtered.length : Int) + page_size - 1).ediv page_size := by
      have hdiv : ((filtered.length : Int) + page_size - 1).ediv page_size =
          ((filtered.length : Int) + page_size - 1) / page_size := rfl
      rw [hdiv, Int.le_ediv_iff_mul_le (by omega : (0:Int) < page_size)]
      have h1 : (1:Int) ≤ (filtered.length : Int) := by exact_mod_cast hN
      omega
    unfold build_model_page_text
    rw [if_neg (by omega : ¬(page < 1)), hf]
    dsimp only
    rw [if_neg hlen0, if_pos h3]

set_option maxRecDepth 100000

/-- A filtered set of exactly 151 records. -/
def c5Board : List PropRec := List.replicate 151 (mkRec "A" "NBA" "nba")

/-- Witness for C5 at N = 151, P = 150: page 1 carries 150 records, page 2
carries 1, and page 3 is a 404 reporting `total_pages=2`. -/
theorem c5_pagination_witness :
    (filter_props_for_board c5Board "all" none = .ok c5Board ∧
     0 < c5Board.length ∧ (1 : Int) ≤ 150) ∧
    build_model_page_text c5Board "all" none 1 150 =
      .ok (pyJoin "\n" (modelHeader ::
        ((c5Board.drop (((1 : Int) - 1) * 150).toNat).take (150 : Int).toNat).map
          modelRow)) ∧
    ((c5Board.drop (((1 : Int) - 1) * 150).toNat).take (150 : Int).toNat).length = 150 ∧
    ((c5Board.drop (((2 : Int) - 1) * 150).toNat).take (150 : Int).toNat).length = 1 ∧
    build_model_page_text c5Board "all" none 3 150 =
      .error ⟨404, pageOutOfRangeMsg 3
        (((c5Board.length : Int) + 150 - 1).ediv 150)⟩ ∧
    pageOutOfRangeMsg 3 (((c5Board.length : Int) + 150 - 1).ediv 150) =
      "Page 3 out of range (total_pages=2)" := by
  refine ⟨⟨by decide, by decide, by decide⟩, ?_, by decide, by decide, ?_, by decide⟩
  · exact ((c5_pagination c5Board "all" none c5Board 1 150 (by decide) (by decide)
      (by decide)).2.1 (by decide) (by decide)).1
  · exact (c5_pagination c5Board "all" none c5Board 3 150 (by decide) (by decide)
      (by decide)).2.2 (by decide)

/-- The export cap is always positive. -/
theorem exportEffectiveMax_pos (maxRaw : Option JNum) :
    0 < exportEffectiveMax maxRaw := by
  unfold exportEffectiveMax
  dsimp only
  split <;> omega

/-- The export cap is 300, or the parsed positive value of the request's
`max`: an unparseable or non-positive `max` is coerced to 300. -/
theorem exportEffectiveMax_spec (maxRaw : Option JNum) :
    exportEffectiveMax maxRaw = 300 ∨
      ∃ i, pyIntOf? (maxRaw.getD (.num ⟨300, 0⟩)) = some i ∧ 0 < i ∧
        exportEffectiveMax maxRaw = i := by
  unfold exportEffectiveMax
  cases maxRaw with
  | none => left; rfl
  | some j =>
      by_cases ht : jnumTruthy (some j) = true
      · rw [if_pos ht]
        dsimp only [Option.getD]
        cases hp : pyIntOf? j with
        | none => left; norm_num
        | some i =>
            by_cases hi : i ≤ 0
            · left; simp [hi]
            · right
              exact ⟨i, by simp [hp], by omega, by simp [hi]⟩
      · rw [if_neg ht]
        left
        decide

/-- C8: for a valid non-empty sports selection, the export endpoint
returns the selected records sorted by sport, then game time, then player,
truncated to the effective maximum (unparseable or non-positive `max`
coerced to 300, always positive), and the reported count is exactly the
number of data rows of the returned text. -/
theorem c8_export_cap (st : Store) (now : Int) (sl tiers : List String)
    (maxRaw : Option JNum) (hsl : sl ≠ [])
    (hvalid : ¬(exportValidKeys sl).isEmpty = true) :
    (export_data st now (some sl) tiers maxRaw).2 =
      .ok { text := pyJoin "\n" (modelHeader ::
              ((sortBoard ((get_current_props st now).1.filter
                  (exportSelPred sl tiers))).take
                (exportEffectiveMax maxRaw).toNat).map exportRow),
            count := ((sortBoard ((get_current_props st now).1.filter
                  (exportSelPred sl tiers))).take
                (exportEffectiveMax maxRaw).toNat).length } ∧
    0 < exportEffectiveMax maxRaw ∧
    (exportEffectiveMax maxRaw = 300 ∨
      ∃ i, pyIntOf? (maxRaw.getD (.num ⟨300, 0⟩)) = some i ∧ 0 < i ∧
        exportEffectiveMax maxRaw = i) := by
  refine ⟨?_, exportEffectiveMax_pos maxRaw, exportEffectiveMax_spec maxRaw⟩
  unfold export_data
  dsimp only
  rw [if_neg (by simpa [List.isEmpty_iff] using hsl), if_neg hvalid]
  dsimp only
  by_cases hgt : ((sortBoard ((get_current_props st now).1.filter
      (exportSelPred sl tiers))).length : Int) > exportEffectiveMax maxRaw
  · rw [if_pos hgt]
  · rw [if_neg hgt]
    have hle : (sortBoard ((get_current_props st now).1.filter
        (exportSelPred sl tiers))).length ≤ (exportEffectiveMax maxRaw).toNat := by
      have hpos := exportEffectiveMax_pos maxRaw
      omega
    rw [List.take_of_length_le hle]

/-- Ten live `nba` records with distinct players, already in sort order. -/
def c8Board : List PropRec :=
  [mkRec "p0" "NBA" "nba", mkRec "p1" "NBA" "nba", mkRec "p2" "NBA" "nba",
   mkRec "p3" "NBA" "nba", mkRec "p4" "NBA" "nba", mkRec "p5" "NBA" "nba",
   mkRec "p6" "NBA" "nba", mkRec "p7" "NBA" "nba", mkRec "p8" "NBA" "nba",
   mkRec "p9" "NBA" "nba"]

/-- Witness for C8: `max = 2` over 10 matching records exports exactly the
first 2 sorted records and reports `count = 2`. -/
theorem c8_export_cap_witness :
    ((["nba"] : List String) ≠ [] ∧
     ¬(exportValidKeys ["nba"]).isEmpty = true) ∧
    (export_data (save_props c8Board) 0 (some ["nba"]) []
        (some (.num ⟨2, 0⟩))).2 =
      .ok { text := pyJoin "\n" (modelHeader ::
              ((sortBoard ((get_current_props (save_props c8Board) 0).1.filter
                  (exportSelPred ["nba"] []))).take
                (exportEffectiveMax (some (.num ⟨2, 0⟩))).toNat).map exportRow),
            count := ((sortBoard ((get_current_props (save_props c8Board) 0).1.filter
                  (exportSelPred ["nba"] []))).take
                (exportEffectiveMax (some (.num ⟨2, 0⟩))).toNat).length } ∧
    (sortBoard ((get_current_props (save_props c8Board) 0).1.filter
        (exportSelPred ["nba"] []))).take
      (exportEffectiveMax (some (.num ⟨2, 0⟩))).toNat =
      [mkRec "p0" "NBA" "nba", mkRec "p1" "NBA" "nba"] ∧
    ((sortBoard ((get_current_props (save_props c8Board) 0).1.filter
        (exportSelPred ["nba"] []))).take
      (exportEffectiveMax (some (.num ⟨2, 0⟩))).toNat).length = 2 :=
  ⟨⟨by decide, by decide⟩,
   (c8_export_cap (save_props c8Board) 0 ["nba"] [] (some (.num ⟨2, 0⟩))
     (by decide) (by decide)).1,
   by decide, by decide⟩
